import Mathlib

/-!
# Verification model of the AnnouncementBot repository

Shallow embedding of the three source files:
* `offers_db.py`  — the `Offer` record, the `OfferStore` repository and the
  input normalizers `normalize_price` / `parse_quantity`;
* `bot.py`        — the command handlers, the conversation flow engine and
  the offer lifecycle operations (`_mark_sold_out`,
  `_send_offer_announcement`, `_create_offer_and_announce`, ...);
* `announcement_stock_bot.py` — the size-gated upload helper with its
  one-retry policy and the announcement message builder.

External effects (Telegram transport, upload hosts) are modelled as oracle
parameters giving each call's outcome; every handler additionally returns a
trace of the effects it performed, in order.
-/

instance {ε α : Type} [DecidableEq ε] [DecidableEq α] : DecidableEq (Except ε α)
  | .ok a, .ok b =>
    if h : a = b then .isTrue (by rw [h]) else .isFalse (by simp [h])
  | .ok _, .error _ => .isFalse (by simp)
  | .error _, .ok _ => .isFalse (by simp)
  | .error e, .error f =>
    if h : e = f then .isTrue (by rw [h]) else .isFalse (by simp [h])

namespace AnnouncementBot

/-! ## Digits and decimal strings

Helpers for parsing and printing decimal digit strings, used to model
Python's `int(...)` and `decimal.Decimal` as exercised by
`offers_db.normalize_price` and `offers_db.parse_quantity`. -/

/-- Numeric value of a decimal digit character, `none` for non-digits. -/
def digitVal? (c : Char) : Option Nat :=
  if '0' ≤ c ∧ c ≤ '9' then some (c.toNat - 48) else none

/-- The character for a decimal digit `d < 10`. -/
def digitChar (d : Nat) : Char := Char.ofNat (48 + d)

/-- Longest prefix of decimal digits of a character list, with the rest. -/
def spanDigits : List Char → List Nat × List Char
  | [] => ([], [])
  | c :: cs =>
    match digitVal? c with
    | some d => let p := spanDigits cs; (d :: p.1, p.2)
    | none => ([], c :: cs)

/-- Value of a big-endian digit list (`[1,2,3] ↦ 123`). -/
def ofDigitsBE (ds : List Nat) : Nat := ds.foldl (fun a d => 10 * a + d) 0

/-- Little-endian base-10 digits with explicit fuel (structural recursion,
so that concrete evaluation reduces in the kernel). -/
def digitsFuel : Nat → Nat → List Nat
  | _, 0 => []
  | 0, _ + 1 => []
  | f + 1, n + 1 => (n + 1) % 10 :: digitsFuel f ((n + 1) / 10)

/-- Little-endian base-10 digits of `n` (`[]` for `0`). -/
def digitsLE (n : Nat) : List Nat := digitsFuel n n

/-- Big-endian digit list of a natural number (`0 ↦ [0]`). -/
def toDigitsBE (n : Nat) : List Nat :=
  if n = 0 then [0] else (digitsLE n).reverse

/-- Decimal rendering of a natural number. -/
def natToString (n : Nat) : String := ⟨(toDigitsBE n).map digitChar⟩

/-- Two-digit zero-padded rendering of `n < 100`. -/
def pad2 (n : Nat) : String := ⟨[digitChar (n / 10), digitChar (n % 10)]⟩

/-- Strip an optional leading sign; returns (isNegative, rest). -/
def stripSign (cs : List Char) : Bool × List Char :=
  match cs with
  | c :: rest =>
    if c = '-' then (true, rest)
    else if c = '+' then (false, rest)
    else (false, cs)
  | [] => (false, [])

/-- Python `int(text)`: optional sign followed by one or more digits.
(The model omits Python's surrounding-whitespace and underscore-separator
tolerance, which no claim exercises.) -/
def pyInt? (s : String) : Option Int :=
  let p := stripSign s.data
  let q := spanDigits p.2
  if q.1 = [] ∨ q.2 ≠ [] then none
  else some (if p.1 then -(ofDigitsBE q.1 : Int) else (ofDigitsBE q.1 : Int))

/-! ## Python `decimal.Decimal`, as used by `normalize_price`

A finite decimal is a sign, a coefficient and an exponent
(value = ±coeff·10^exp).  `normalize_price` uses construction from a
string, comparison with zero, the integrality test
`dec == dec.to_integral()`, and `quantize` to exponent 0 or -2, which
rounds half-even and raises `InvalidOperation` when the resulting
coefficient exceeds the default context precision of 28 digits. -/

/-- A finite Python `Decimal`: value = (-1)^neg · coeff · 10^exp. -/
structure Dec where
  neg : Bool
  coeff : Nat
  exp : Int
deriving DecidableEq, Repr

/-- Fractional-part digits after an optional decimal point. -/
def afterPoint (cs : List Char) : List Nat × List Char :=
  match cs with
  | c :: rest => if c = '.' then spanDigits rest else ([], c :: rest)
  | [] => ([], [])

/-- Exponent part of a decimal literal: optional sign then digits, to end. -/
def parseExpPart (cs : List Char) : Option Int :=
  let p := stripSign cs
  let q := spanDigits p.2
  if q.1 = [] ∨ q.2 ≠ [] then none
  else some (if p.1 then -(ofDigitsBE q.1 : Int) else (ofDigitsBE q.1 : Int))

/-- Finish parsing after coefficient digits: end of input or an exponent. -/
def parseTail (cs : List Char) (d : Dec) : Option Dec :=
  match cs with
  | [] => some d
  | c :: rest =>
    if c = 'e' ∨ c = 'E' then
      (parseExpPart rest).map fun e => ⟨d.neg, d.coeff, d.exp + e⟩
    else none

/-- `Decimal(s)` on a finite numeric literal:
`[sign] digits [. digits] [(e|E) [sign] digits]` with at least one
coefficient digit.  (Python additionally strips surrounding whitespace,
allows underscore separators and accepts `NaN`/`Infinity`; none of these
are exercised by the claims.) -/
def parseDecimal (s : String) : Option Dec :=
  let p0 := stripSign s.data
  let p1 := spanDigits p0.2
  let p2 := afterPoint p1.2
  if p1.1 = [] ∧ p2.1 = [] then none
  else
    parseTail p2.2 ⟨p0.1, ofDigitsBE (p1.1 ++ p2.1), -(p2.1.length : Int)⟩

/-- `dec <= 0` for a finite decimal. -/
def Dec.nonpos (d : Dec) : Bool := d.neg || d.coeff = 0

/-- `dec == dec.to_integral()`: the value is an integer. -/
def Dec.isIntegral (d : Dec) : Bool :=
  if 0 ≤ d.exp then true else decide (10 ^ (-d.exp).toNat ∣ d.coeff)

/-- Divide by `10^p` rounding half-even (`ROUND_HALF_EVEN` on a
non-negative coefficient). -/
def divRHE (c p : Nat) : Nat :=
  let d := 10 ^ p
  let q := c / d
  let r := c % d
  if 2 * r < d then q
  else if d < 2 * r then q + 1
  else if q % 2 = 0 then q else q + 1

/-- Number of decimal digits of `n` (`0` for `n = 0`). -/
def numDigits (n : Nat) : Nat := (digitsLE n).length

/-- `dec.quantize(Decimal(10^e))` with the default context: round the value
half-even to exponent `e`; `none` models the uncaught `InvalidOperation`
raised when the resulting coefficient exceeds 28 digits. -/
def Dec.quantize (d : Dec) (e : Int) : Option Dec :=
  let c :=
    if e ≤ d.exp then d.coeff * 10 ^ (d.exp - e).toNat
    else divRHE d.coeff (e - d.exp).toNat
  if numDigits c ≤ 28 then some ⟨d.neg, c, e⟩ else none

/-- Strip all trailing occurrences of `c` (Python `str.rstrip(c)`). -/
def rstripChar (s : String) (c : Char) : String :=
  ⟨(s.data.reverse.dropWhile (· = c)).reverse⟩

/-- Errors out of `normalize_price`: the `ValueError`s it raises itself,
and the uncaught `InvalidOperation` escaping `quantize`. -/
inductive PriceError
  | valueError (msg : String)
  | invalidOperation
deriving DecidableEq, Repr

/-- `offers_db.normalize_price`: parse as exact decimal, reject ≤ 0; an
integral value renders with no fractional part via `quantize(1)`;
otherwise `quantize(0.01)` (half-even), fixed 2-decimal formatting, then
strip trailing zeros and a trailing point. -/
def normalize_price (s : String) : Except PriceError String :=
  match parseDecimal s with
  | none => .error (.valueError "Price must be a number")
  | some d =>
    if d.nonpos then .error (.valueError "Price must be greater than zero")
    else if d.isIntegral then
      match d.quantize 0 with
      | some q => .ok (natToString q.coeff)
      | none => .error .invalidOperation
    else
      match d.quantize (-2) with
      | some q =>
        .ok (rstripChar
          (rstripChar (natToString (q.coeff / 100) ++ "." ++ pad2 (q.coeff % 100)) '0') '.')
      | none => .error .invalidOperation

/-- `offers_db.parse_quantity`: Python `int(...)`, rejecting negatives. -/
def parse_quantity (s : String) : Except String Int :=
  match pyInt? s with
  | none => .error "Quantity must be a whole number"
  | some q =>
    if q < 0 then .error "Quantity must be zero or greater" else .ok q

/-- `bot._parse_offer_id`: Python `int(...)`. -/
def parseOfferId (s : String) : Except String Int :=
  match pyInt? s with
  | none => .error "Offer id must be a number"
  | some q => .ok q

/-! ## The offer repository (`offers_db.OfferStore`)

The SQLite store is modelled as a list of rows plus the AUTOINCREMENT
counter and the settings table.  Each `OfferStore` method is a single
statement; `rowcount > 0` results are returned as the `Bool` component. -/

/-- A row of the `offers` table (`offers_db.Offer`).  `created_at` is an
abstract timestamp tick supplied by the caller. -/
structure Offer where
  id : Int
  name : String
  quantity : Int
  price : String
  active : Bool
  createdAt : Int
  announceChatId : Option Int
  announceMessageId : Option Int
deriving DecidableEq, Repr

/-- The database: offer rows in insertion order, the next AUTOINCREMENT
id, and the `settings` key/value table. -/
structure OfferStore where
  offers : List Offer
  nextId : Int
  settings : List (String × String)
deriving DecidableEq, Repr

namespace OfferStore

/-- `SELECT * FROM offers WHERE id = ?` (ids are unique by primary key). -/
def get_offer (s : OfferStore) (offerId : Int) : Option Offer :=
  s.offers.find? (fun o => o.id = offerId)

/-- `UPDATE offers SET ... WHERE id = ?`: apply `f` to the matching row;
the `Bool` is `rowcount > 0`. -/
def updateWhere (s : OfferStore) (offerId : Int) (f : Offer → Offer) :
    Bool × OfferStore :=
  (s.offers.any (fun o => o.id = offerId),
   { s with offers := s.offers.map fun o => if o.id = offerId then f o else o })

/-- `offers_db.OfferStore.add_offer`: insert with `active=1` and empty
announcement binding; the id comes from AUTOINCREMENT. -/
def add_offer (s : OfferStore) (name : String) (quantity : Int)
    (price : String) (now : Int) : Offer × OfferStore :=
  let offer : Offer :=
    { id := s.nextId, name := name, quantity := quantity, price := price,
      active := true, createdAt := now,
      announceChatId := none, announceMessageId := none }
  (offer, { s with offers := s.offers ++ [offer], nextId := s.nextId + 1 })

/-- `offers_db.OfferStore.list_offers`: active rows, newest first
(`created_at DESC` realised as reverse insertion order; ticks increase). -/
def list_offers (s : OfferStore) (activeOnly : Bool) : List Offer :=
  (if activeOnly then s.offers.filter (fun o => o.active) else s.offers).reverse

/-- `offers_db.OfferStore.set_active`. -/
def set_active (s : OfferStore) (offerId : Int) (active : Bool) :
    Bool × OfferStore :=
  s.updateWhere offerId fun o => { o with active := active }

/-- `offers_db.OfferStore.update_quantity`. -/
def update_quantity (s : OfferStore) (offerId : Int) (quantity : Int) :
    Bool × OfferStore :=
  s.updateWhere offerId fun o => { o with quantity := quantity }

/-- `offers_db.OfferStore.update_price`. -/
def update_price (s : OfferStore) (offerId : Int) (price : String) :
    Bool × OfferStore :=
  s.updateWhere offerId fun o => { o with price := price }

/-- `offers_db.OfferStore.attach_announcement`: overwrite both binding
columns with the new message location. -/
def attach_announcement (s : OfferStore) (offerId chatId messageId : Int) :
    Bool × OfferStore :=
  s.updateWhere offerId fun o =>
    { o with announceChatId := some chatId,
             announceMessageId := some messageId }

/-- `offers_db.OfferStore.get_setting`. -/
def get_setting (s : OfferStore) (key : String) : Option String :=
  (s.settings.find? (fun kv => kv.1 = key)).map (fun kv => kv.2)

/-- `offers_db.OfferStore.set_setting` (`INSERT OR REPLACE`). -/
def set_setting (s : OfferStore) (key value : String) : OfferStore :=
  { s with settings :=
      (key, value) :: s.settings.filter (fun kv => kv.1 ≠ key) }

end OfferStore

/-! ## Effects and transport outcomes

Handlers return, besides the updated state, the ordered trace of the
repository mutations and outbound transport calls they performed. -/

/-- One observable step performed by a handler, in execution order. -/
inductive Effect
  | updateQuantity (offerId quantity : Int)
  | setActive (offerId : Int) (active : Bool)
  | updatePrice (offerId : Int) (price : String)
  | attachAnnouncement (offerId chatId messageId : Int)
  | addOffer (offerId : Int) (name : String) (quantity : Int) (price : String)
  | setSetting (key value : String)
  | sendMessage (chatId : Int) (text : String)
  | deleteMessage (chatId messageId : Int)
  | reply (text : String)
deriving DecidableEq, Repr

/-- Outcome of `bot.send_message` as decided by the transport. -/
inductive SendOutcome
  | ok (chatId messageId : Int)
  | failed (err : String)
deriving DecidableEq, Repr

/-- Outcome of `bot.delete_message` as decided by the transport. -/
inductive DeleteOutcome
  | ok
  | failed (err : String)
deriving DecidableEq, Repr

/-- The transport's responses for the (at most one) send and (at most
one) delete a single text update can trigger. -/
structure Transport where
  send : SendOutcome
  delete : DeleteOutcome
deriving DecidableEq, Repr

/-- Environment configuration read by `bot.py` at startup. -/
structure Env where
  adminUserIds : List Int
  announceChatId : Option Int
  contactText : String
deriving DecidableEq, Repr

/-- `bot._is_admin`: `None` and the empty allow-list are never admin. -/
def isAdmin (adminIds : List Int) (userId : Option Int) : Bool :=
  match userId with
  | none => false
  | some uid => if adminIds = [] then false else adminIds.contains uid

/-- `bot._announcement_chat_id`: stored setting if it parses, else the
`ANNOUNCE_CHAT_ID` env value, else the current chat. -/
def announcementChatId (env : Env) (store : OfferStore) (chat : Int) : Int :=
  match store.get_setting "announce_chat_id" with
  | some v =>
    match pyInt? v with
    | some n => n
    | none =>
      match env.announceChatId with
      | some n => n
      | none => chat
  | none =>
    match env.announceChatId with
    | some n => n
    | none => chat

/-- `bot._build_announcement`. -/
def buildAnnouncement (env : Env) (offer : Offer) : String :=
  "Hey! I have " ++ offer.name ++ " in right now. "
    ++ (toString offer.quantity) ++ " available at $" ++ offer.price ++ ". "
    ++ env.contactText

/-- `bot._format_offer_line` (the separator glyphs are reproduced from the
source byte-for-byte). -/
def formatOfferLine (o : Offer) : String :=
  "#" ++ toString o.id ++ " - " ++ o.name ++ " â€” "
    ++ toString o.quantity ++ " @ $" ++ o.price

/-- `bot._format_offers`. -/
def formatOffers (offers : List Offer) : String :=
  String.intercalate "\n" ("Current stock:" :: offers.map formatOfferLine)

/-! ## The conversation flow engine (`bot.py` session state) -/

/-- The per-user flow step tags (`bot.FLOW_*`). -/
inductive FlowTag
  | addName | addQty | addPrice
  | setQtyId | setQtyValue
  | setPriceId | setPriceValue
  | soldOutId | announceId
  | uploadWaitFile
deriving DecidableEq, Repr

/-- The accumulating field bag (`context.user_data[FLOW_DATA_KEY]`). -/
structure FlowData where
  name : Option String := none
  quantity : Option Int := none
  offerId : Option Int := none
deriving DecidableEq, Repr

/-- A pending flow session: the step tag plus collected data. -/
structure Session where
  tag : FlowTag
  data : FlowData
deriving DecidableEq, Repr

/-- Result of one handler invocation: updated store, the acting user's
flow session afterwards, and the ordered effect trace. -/
structure StepResult where
  store : OfferStore
  session : Option Session
  effects : List Effect
deriving DecidableEq, Repr

/-! ## String helpers used by the handlers -/

/-- ASCII whitespace, as stripped by Python `str.strip()` / `str.split()`
(the exotic Unicode whitespace Python also strips is not exercised). -/
def isSpaceChar (c : Char) : Bool :=
  c = ' ' || c = '\t' || c = '\n' || c = '\r'

/-- Python `str.strip()`. -/
def pyStrip (s : String) : String :=
  ⟨((s.data.dropWhile isSpaceChar).reverse.dropWhile isSpaceChar).reverse⟩

/-- ASCII lowercasing of one character (Python `str.lower()` restricted
to the ASCII letters the dispatch actually compares). -/
def charLower (c : Char) : Char :=
  if 'A' ≤ c ∧ c ≤ 'Z' then Char.ofNat (c.toNat + 32) else c

/-- Python `str.lower()` over the relevant alphabet. -/
def pyLower (s : String) : String := ⟨s.data.map charLower⟩

/-- Split at every occurrence of the character `c` (Python
`str.split("|")` for the single-character separator used by `/add`). -/
def splitOnChar (c : Char) : List Char → List (List Char)
  | [] => [[]]
  | x :: xs =>
    let r := splitOnChar c xs
    if x = c then [] :: r
    else
      match r with
      | [] => [[x]]
      | g :: gs => (x :: g) :: gs

/-- Python `payload.split("|")`. -/
def pySplitPipe (s : String) : List String :=
  (splitOnChar '|' s.data).map fun g => ⟨g⟩

/-- Split at the first occurrence of `c`, if any. -/
def splitFirst (c : Char) : List Char → Option (List Char × List Char)
  | [] => none
  | x :: xs =>
    if x = c then some ([], xs)
    else (splitFirst c xs).map fun p => (x :: p.1, p.2)

/-- `bot._command_text`: `text.split(" ", 1)[1].strip()`, or `""` when the
message holds no argument. -/
def commandText (text : String) : String :=
  match splitFirst ' ' text.data with
  | none => ""
  | some p => pyStrip ⟨p.2⟩

/-- Python `str.split()` (whitespace runs, no empties), fuel-driven. -/
def wordsFuel : Nat → List Char → List (List Char)
  | 0, _ => []
  | _ + 1, [] => []
  | f + 1, c :: cs =>
    if isSpaceChar c then wordsFuel f cs
    else
      let p := List.span (fun x => !(isSpaceChar x)) (c :: cs)
      p.1 :: wordsFuel f p.2

/-- Python `payload.split()`. -/
def pySplitWS (s : String) : List String :=
  (wordsFuel s.data.length s.data).map fun w => ⟨w⟩

/-- Python truthiness of an optional integer column (`None` and `0` are
falsy). -/
def truthyId : Option Int → Bool
  | none => false
  | some n => n != 0

/-- The menu button labels (`bot.MENU_LABELS`). -/
def MENU_LABELS : List String :=
  ["Stock", "Add offer", "Update qty", "Update price", "Sold out",
   "Re-announce", "Set announce chat", "Upload file", "Help", "Menu",
   "Cancel"]

/-- `bot._require_admin`: the denial reply, or `none` when allowed. -/
def requireAdminReply (env : Env) (userId : Option Int) : Option String :=
  if env.adminUserIds = [] then
    some "Admins are not configured. Set ADMIN_USER_IDS to enable admin commands."
  else if !(isAdmin env.adminUserIds userId) then
    some "Not authorized. Ask the owner to add you as an admin."
  else none

/-- `bot._parse_add_payload`: `name | quantity | price`, each stripped;
quantity must be positive; the price is canonicalized (an
`InvalidOperation` escaping `normalize_price` is not caught there). -/
def parseAddPayload (payload : String) :
    Except PriceError (String × Int × String) :=
  match (pySplitPipe payload).map pyStrip with
  | [name, quantityText, priceText] =>
    if name = "" then .error (.valueError "Name is required")
    else
      match parse_quantity quantityText with
      | .error m => .error (.valueError m)
      | .ok quantity =>
        if quantity ≤ 0 then
          .error (.valueError "Quantity must be greater than zero")
        else
          match normalize_price priceText with
          | .error e => .error e
          | .ok price => .ok (name, quantity, price)
  | _ => .error (.valueError "Expected three values: name | quantity | price")

/-! ## Lifecycle operations (`bot.py`) -/

/-- Per-update inputs shared by every handler: configuration, the acting
user, the originating chat, the transport's responses and the clock. -/
structure Ctx where
  env : Env
  userId : Option Int
  chat : Int
  tr : Transport
  now : Int
deriving Repr

/-- `bot._create_offer_and_announce`: insert the offer, then best-effort
publish; on publish success bind the message, on failure leave the offer
unannounced and report the partial failure. -/
def createOfferAndAnnounce (ctx : Ctx) (store : OfferStore)
    (name : String) (quantity : Int) (price : String) :
    OfferStore × List Effect :=
  let r := store.add_offer name quantity price ctx.now
  let offer := r.1
  let s1 := r.2
  let target := announcementChatId ctx.env s1 ctx.chat
  let ann := buildAnnouncement ctx.env offer
  match ctx.tr.send with
  | .ok c m =>
    let r2 := s1.attach_announcement offer.id c m
    (r2.2,
     [.addOffer offer.id name quantity price, .sendMessage target ann,
      .attachAnnouncement offer.id c m,
      .reply (if target = ctx.chat then
          "Added offer #" ++ toString offer.id ++ "."
        else
          "Added offer #" ++ toString offer.id ++ " and announced it.")])
  | .failed e =>
    (s1,
     [.addOffer offer.id name quantity price, .sendMessage target ann,
      .reply ("Added offer #" ++ toString offer.id
        ++ ". Announcement failed: " ++ e)])

/-- `bot._send_offer_announcement`: legal only for an existing active
offer; publish a fresh announcement and rebind on success.  The `Bool` is
the function's return value. -/
def sendOfferAnnouncement (ctx : Ctx) (store : OfferStore) (offerId : Int) :
    OfferStore × List Effect × Bool :=
  match store.get_offer offerId with
  | none => (store, [.reply "Offer not found or inactive."], false)
  | some offer =>
    if !offer.active then
      (store, [.reply "Offer not found or inactive."], false)
    else
      let target := announcementChatId ctx.env store ctx.chat
      let ann := buildAnnouncement ctx.env offer
      match ctx.tr.send with
      | .ok c m =>
        let r := store.attach_announcement offer.id c m
        (r.2,
         [.sendMessage target ann, .attachAnnouncement offer.id c m,
          .reply ("Announced #" ++ toString offer.id ++ ".")],
         true)
      | .failed e =>
        (store, [.sendMessage target ann, .reply e], false)

/-- `bot._mark_sold_out`: force quantity 0 and active false in the
repository, then best-effort delete the bound announcement (skipped when
either binding column is null or zero, by Python truthiness). -/
def markSoldOut (ctx : Ctx) (store : OfferStore) (offer : Offer) :
    OfferStore × List Effect :=
  let r1 := store.update_quantity offer.id 0
  let r2 := r1.2.set_active offer.id false
  let bound := truthyId offer.announceChatId && truthyId offer.announceMessageId
  let delEffects :=
    if bound then
      [Effect.deleteMessage (offer.announceChatId.getD 0)
        (offer.announceMessageId.getD 0)]
    else []
  let deleted := bound && (match ctx.tr.delete with | .ok => true | .failed _ => false)
  (r2.2,
   Effect.updateQuantity offer.id 0 :: Effect.setActive offer.id false ::
     delEffects ++
     [Effect.reply (if deleted then
         "Marked #" ++ toString offer.id ++ " as sold out and removed the announcement."
       else
         "Marked #" ++ toString offer.id ++ " as sold out.")])

/-! ## The flow engine core (`bot._handle_flow_text`) -/

/-- `bot._handle_flow_text`: advance the acting user's pending flow by one
text input.  Validation failures re-prompt without advancing; the final
step of each flow hands off to the lifecycle operation.  An uncaught
`InvalidOperation` out of `normalize_price` aborts the handler with no
reply and no state change (the framework logs it). -/
def handleFlowText (ctx : Ctx) (store : OfferStore) (sess : Session)
    (text : String) : StepResult :=
  if !(isAdmin ctx.env.adminUserIds ctx.userId) then
    ⟨store, none,
     [.reply "Not authorized. Ask the owner to add you as an admin."]⟩
  else
    let data := sess.data
    match sess.tag with
    | .addName =>
      let name := pyStrip text
      if name = "" then
        ⟨store, some sess, [.reply "Please send a name for the offer."]⟩
      else
        ⟨store, some ⟨.addQty, { data with name := some name }⟩,
         [.reply "Great. Now send the quantity (whole number)."]⟩
    | .addQty =>
      match parse_quantity text with
      | .error m => ⟨store, some sess, [.reply m]⟩
      | .ok quantity =>
        if quantity ≤ 0 then
          ⟨store, some sess, [.reply "Quantity must be greater than zero."]⟩
        else
          ⟨store, some ⟨.addPrice, { data with quantity := some quantity }⟩,
           [.reply "Almost done. Send the price (number)."]⟩
    | .addPrice =>
      match normalize_price text with
      | .error (.valueError m) => ⟨store, some sess, [.reply m]⟩
      | .error .invalidOperation => ⟨store, some sess, []⟩
      | .ok price =>
        let r := createOfferAndAnnounce ctx store
          (pyStrip (data.name.getD "")) (data.quantity.getD 0) price
        ⟨r.1, none, r.2⟩
    | .setQtyId =>
      match parseOfferId text with
      | .error m => ⟨store, some sess, [.reply m]⟩
      | .ok offerId =>
        match store.get_offer offerId with
        | none =>
          ⟨store, some sess, [.reply "Offer not found. Send a valid offer ID."]⟩
        | some _ =>
          ⟨store, some ⟨.setQtyValue, { data with offerId := some offerId }⟩,
           [.reply "Send the new quantity (0 to mark sold out)."]⟩
    | .setQtyValue =>
      match parse_quantity text with
      | .error m => ⟨store, some sess, [.reply m]⟩
      | .ok quantity =>
        let offerId := data.offerId.getD 0
        match store.get_offer offerId with
        | none =>
          ⟨store, some ⟨.setQtyId, {}⟩,
           [.reply "Offer not found. Send a valid offer ID."]⟩
        | some offer =>
          if quantity = 0 then
            let r := markSoldOut ctx store offer
            ⟨r.1, none, r.2⟩
          else
            let r1 := store.update_quantity offerId quantity
            let r2 := r1.2.set_active offerId true
            ⟨r2.2, none,
             [.updateQuantity offerId quantity, .setActive offerId true,
              .reply ("Updated #" ++ toString offerId ++ " quantity to "
                ++ toString quantity ++ ".")]⟩
    | .setPriceId =>
      match parseOfferId text with
      | .error m => ⟨store, some sess, [.reply m]⟩
      | .ok offerId =>
        match store.get_offer offerId with
        | none =>
          ⟨store, some sess, [.reply "Offer not found. Send a valid offer ID."]⟩
        | some _ =>
          ⟨store, some ⟨.setPriceValue, { data with offerId := some offerId }⟩,
           [.reply "Send the new price."]⟩
    | .setPriceValue =>
      match normalize_price text with
      | .error (.valueError m) => ⟨store, some sess, [.reply m]⟩
      | .error .invalidOperation => ⟨store, some sess, []⟩
      | .ok price =>
        let offerId := data.offerId.getD 0
        match store.get_offer offerId with
        | none =>
          ⟨store, some ⟨.setPriceId, {}⟩,
           [.reply "Offer not found. Send a valid offer ID."]⟩
        | some _ =>
          let r := store.update_price offerId price
          ⟨r.2, none,
           [.updatePrice offerId price,
            .reply ("Updated #" ++ toString offerId ++ " price to $"
              ++ price ++ ".")]⟩
    | .soldOutId =>
      match parseOfferId text with
      | .error m => ⟨store, some sess, [.reply m]⟩
      | .ok offerId =>
        match store.get_offer offerId with
        | none =>
          ⟨store, some sess, [.reply "Offer not found. Send a valid offer ID."]⟩
        | some offer =>
          let r := markSoldOut ctx store offer
          ⟨r.1, none, r.2⟩
    | .announceId =>
      match parseOfferId text with
      | .error m => ⟨store, some sess, [.reply m]⟩
      | .ok offerId =>
        let r := sendOfferAnnouncement ctx store offerId
        ⟨r.1, if r.2.2 then none else some sess, r.2.1⟩
    | .uploadWaitFile =>
      ⟨store, some sess,
       [.reply "Please send a file as a document, or /cancel to stop."]⟩

/-! ## Command handlers (`bot.py`) -/

/-- `bot.show_menu` (also `/start`). -/
def showMenu (ctx : Ctx) (store : OfferStore) (sess : Option Session) :
    StepResult :=
  let admin := isAdmin ctx.env.adminUserIds ctx.userId
  let lines :=
    ["Welcome! Tap a button below to get started.",
     "You can also type /help for details."] ++
    (if admin then
      ["",
       "Admin tip: use Upload file to post sample announcements.",
       "Send a document with an optional caption to set the header.",
       "Use Set announce chat in the target group to post there."]
     else [])
  ⟨store, sess, [.reply (String.intercalate "\n" lines)]⟩

/-- `bot.help_command`. -/
def helpCommand (ctx : Ctx) (store : OfferStore) (sess : Option Session) :
    StepResult :=
  let admin := isAdmin ctx.env.adminUserIds ctx.userId
  let lines :=
    ["Customer commands:",
     "/stock - show current offers",
     "/menu - show the button menu"] ++
    (if admin then
      ["",
       "Admin commands:",
       "/add Name | qty | price",
       "/setqty <id> <qty>",
       "/setprice <id> <price>",
       "/soldout <id>",
       "/announce <id>",
       "/setannounce [chat_id] - set announcement chat",
       "/upload - start file upload flow",
       "/cancel - exit the current step",
       "",
       "You can also use the menu buttons for guided prompts."]
     else [])
  ⟨store, sess, [.reply (String.intercalate "\n" lines)]⟩

/-- `bot.cancel`: clear the flow unconditionally. -/
def cancelCommand (store : OfferStore) : StepResult :=
  ⟨store, none, [.reply "Canceled. You're back at the main menu."]⟩

/-- `bot.stock`: list active offers (read-only). -/
def stockCommand (store : OfferStore) (sess : Option Session) : StepResult :=
  let offers := store.list_offers true
  if offers = [] then
    ⟨store, sess, [.reply "All sold out right now."]⟩
  else
    ⟨store, sess, [.reply (formatOffers offers)]⟩

/-- `bot.text_stock_trigger`: free-text `stock`/`offers`/`list`. -/
def textStockTrigger (store : OfferStore) (sess : Option Session)
    (text : String) : StepResult :=
  let t := pyLower (pyStrip text)
  if t = "stock" || t = "offers" || t = "list" then
    stockCommand store sess
  else ⟨store, sess, []⟩

/-- `bot.add_offer` (`/add Name | qty | price`). -/
def addOfferCommand (ctx : Ctx) (store : OfferStore) (sess : Option Session)
    (text : String) : StepResult :=
  match requireAdminReply ctx.env ctx.userId with
  | some msg => ⟨store, sess, [.reply msg]⟩
  | none =>
    let payload := commandText text
    if payload = "" then
      ⟨store, none, [.reply "Usage: /add Name | qty | price"]⟩
    else
      match parseAddPayload payload with
      | .error (.valueError m) => ⟨store, none, [.reply m]⟩
      | .error .invalidOperation => ⟨store, none, []⟩
      | .ok (name, quantity, price) =>
        let r := createOfferAndAnnounce ctx store name quantity price
        ⟨r.1, none, r.2⟩

/-- `bot.set_quantity` (`/setqty <id> <qty>`). -/
def setQuantityCommand (ctx : Ctx) (store : OfferStore)
    (sess : Option Session) (text : String) : StepResult :=
  match requireAdminReply ctx.env ctx.userId with
  | some msg => ⟨store, sess, [.reply msg]⟩
  | none =>
    let payload := commandText text
    if payload = "" then
      ⟨store, none, [.reply "Usage: /setqty <id> <qty>"]⟩
    else
      match pySplitWS payload with
      | [idText, qtyText] =>
        match parseOfferId idText with
        | .error m => ⟨store, none, [.reply m]⟩
        | .ok offerId =>
          match parse_quantity qtyText with
          | .error m => ⟨store, none, [.reply m]⟩
          | .ok quantity =>
            match store.get_offer offerId with
            | none => ⟨store, none, [.reply "Offer not found."]⟩
            | some offer =>
              if quantity = 0 then
                let r := markSoldOut ctx store offer
                ⟨r.1, none, r.2⟩
              else
                let r1 := store.update_quantity offerId quantity
                let r2 := r1.2.set_active offerId true
                ⟨r2.2, none,
                 [.updateQuantity offerId quantity, .setActive offerId true,
                  .reply ("Updated #" ++ toString offerId ++ " quantity to "
                    ++ toString quantity ++ ".")]⟩
      | _ => ⟨store, none, [.reply "Usage: /setqty <id> <qty>"]⟩

/-- `bot.set_price` (`/setprice <id> <price>`). -/
def setPriceCommand (ctx : Ctx) (store : OfferStore) (sess : Option Session)
    (text : String) : StepResult :=
  match requireAdminReply ctx.env ctx.userId with
  | some msg => ⟨store, sess, [.reply msg]⟩
  | none =>
    let payload := commandText text
    if payload = "" then
      ⟨store, none, [.reply "Usage: /setprice <id> <price>"]⟩
    else
      match pySplitWS payload with
      | [idText, priceText] =>
        match parseOfferId idText with
        | .error m => ⟨store, none, [.reply m]⟩
        | .ok offerId =>
          match normalize_price priceText with
          | .error (.valueError m) => ⟨store, none, [.reply m]⟩
          | .error .invalidOperation => ⟨store, none, []⟩
          | .ok price =>
            match store.get_offer offerId with
            | none => ⟨store, none, [.reply "Offer not found."]⟩
            | some _ =>
              let r := store.update_price offerId price
              ⟨r.2, none,
               [.updatePrice offerId price,
                .reply ("Updated #" ++ toString offerId ++ " price to $"
                  ++ price ++ ".")]⟩
      | _ => ⟨store, none, [.reply "Usage: /setprice <id> <price>"]⟩

/-- `bot.sold_out` (`/soldout <id>`, also `/remove`). -/
def soldOutCommand (ctx : Ctx) (store : OfferStore) (sess : Option Session)
    (text : String) : StepResult :=
  match requireAdminReply ctx.env ctx.userId with
  | some msg => ⟨store, sess, [.reply msg]⟩
  | none =>
    let payload := commandText text
    if payload = "" then
      ⟨store, none, [.reply "Usage: /soldout <id>"]⟩
    else
      match parseOfferId payload with
      | .error m => ⟨store, none, [.reply m]⟩
      | .ok offerId =>
        match store.get_offer offerId with
        | none => ⟨store, none, [.reply "Offer not found."]⟩
        | some offer =>
          let r := markSoldOut ctx store offer
          ⟨r.1, none, r.2⟩

/-- `bot.announce` (`/announce <id>`). -/
def announceCommand (ctx : Ctx) (store : OfferStore) (sess : Option Session)
    (text : String) : StepResult :=
  match requireAdminReply ctx.env ctx.userId with
  | some msg => ⟨store, sess, [.reply msg]⟩
  | none =>
    let payload := commandText text
    if payload = "" then
      ⟨store, none, [.reply "Usage: /announce <id>"]⟩
    else
      match parseOfferId payload with
      | .error m => ⟨store, none, [.reply m]⟩
      | .ok offerId =>
        let r := sendOfferAnnouncement ctx store offerId
        ⟨r.1, none, r.2.1⟩

/-- `bot.set_announce` (`/setannounce [chat_id]`). -/
def setAnnounceCommand (ctx : Ctx) (store : OfferStore)
    (sess : Option Session) (text : String) : StepResult :=
  match requireAdminReply ctx.env ctx.userId with
  | some msg => ⟨store, sess, [.reply msg]⟩
  | none =>
    let payload := commandText text
    let chatId? : Option Int :=
      if payload ≠ "" then pyInt? (pyStrip payload) else some ctx.chat
    match chatId? with
    | none =>
      ⟨store, none,
       [.reply "Chat id must be a number. Example: /setannounce -1001234567890"]⟩
    | some chatId =>
      let s1 := store.set_setting "announce_chat_id" (toString chatId)
      ⟨s1, none,
       [.setSetting "announce_chat_id" (toString chatId),
        .reply (if ctx.chat = chatId then
            "This chat is now set for announcements."
          else
            "Announcement chat set to " ++ toString chatId ++ ".")]⟩

/-- `bot.upload_command` (`/upload`): enter the wait-for-file flow. -/
def uploadCommand (ctx : Ctx) (store : OfferStore) (sess : Option Session) :
    StepResult :=
  match requireAdminReply ctx.env ctx.userId with
  | some msg => ⟨store, sess, [.reply msg]⟩
  | none =>
    ⟨store, some ⟨.uploadWaitFile, {}⟩,
     [.reply (String.intercalate "\n"
       ["Send the file as a document to upload it.",
        "Optional: add a caption to use as the announcement header.",
        "Tip: use 'display: 2.5M' to show an original count.",
        "Send /cancel to stop."])]⟩

/-- The shared shape of `bot._start_add_flow` and friends: admin check,
clear, enter the given step, prompt. -/
def startFlow (ctx : Ctx) (store : OfferStore) (sess : Option Session)
    (tag : FlowTag) (prompt : String) : StepResult :=
  match requireAdminReply ctx.env ctx.userId with
  | some msg => ⟨store, sess, [.reply msg]⟩
  | none => ⟨store, some ⟨tag, {}⟩, [.reply prompt]⟩

/-- `bot.handle_text`: the non-command text entry point — cancel first,
then flow interception (help/menu pass through, other menu labels are
rejected, anything else feeds the flow), then menu-button dispatch, then
the free-text stock trigger. -/
def handleText (ctx : Ctx) (store : OfferStore) (sess : Option Session)
    (rawText : String) : StepResult :=
  let text := pyStrip rawText
  if text = "Cancel" then cancelCommand store
  else
    match sess with
    | some s =>
      if text = "Help" then helpCommand ctx store sess
      else if text = "Menu" then showMenu ctx store sess
      else if MENU_LABELS.contains text then
        ⟨store, sess,
         [.reply "You're in the middle of a step. Send /cancel to stop."]⟩
      else handleFlowText ctx store s text
    | none =>
      if text = "Menu" then showMenu ctx store sess
      else if text = "Help" then helpCommand ctx store sess
      else if text = "Stock" then stockCommand store sess
      else if text = "Add offer" then
        startFlow ctx store sess .addName "Let's add a new offer. Send the item name."
      else if text = "Update qty" then
        startFlow ctx store sess .setQtyId "Send the offer ID to update its quantity."
      else if text = "Update price" then
        startFlow ctx store sess .setPriceId "Send the offer ID to update its price."
      else if text = "Sold out" then
        startFlow ctx store sess .soldOutId "Send the offer ID to mark it sold out."
      else if text = "Re-announce" then
        startFlow ctx store sess .announceId "Send the offer ID to re-announce it."
      else if text = "Set announce chat" then
        setAnnounceCommand ctx store sess rawText
      else if text = "Upload file" then
        uploadCommand ctx store sess
      else textStockTrigger store sess rawText

/-! ## Top-level dispatch (`bot.main` handler registration) -/

/-- Whole-process state: the shared repository plus the per-user flow
sessions (an association list keyed by user id; absent means no flow). -/
structure BotState where
  store : OfferStore
  sessions : List (Int × Session)
deriving DecidableEq, Repr

/-- The acting user's session. -/
def lookupSession (l : List (Int × Session)) (u : Int) : Option Session :=
  (l.find? (fun p => p.1 = u)).map (fun p => p.2)

/-- Replace the acting user's session, leaving every other user's alone. -/
def setSession (l : List (Int × Session)) (u : Int) :
    Option Session → List (Int × Session)
  | none => l.filter (fun p => p.1 ≠ u)
  | some s => (u, s) :: l.filter (fun p => p.1 ≠ u)

/-- The command name of a slash message (`/stock 1` ↦ `stock`), cut at
whitespace or an `@botname` suffix and lowercased, as the framework's
command matching does; `none` for non-command text. -/
def commandOf (text : String) : Option String :=
  match text.data with
  | '/' :: rest =>
    some (pyLower ⟨rest.takeWhile fun c => !(isSpaceChar c) && c ≠ '@'⟩)
  | _ => none

/-- One inbound text update, routed as `bot.main` registers handlers:
slash messages go to the matching `CommandHandler` (unknown commands have
no handler), everything else to `handle_text`.  Documents are handled
elsewhere and never mutate the repository. -/
def dispatch (env : Env) (bs : BotState) (userId chat : Int) (text : String)
    (tr : Transport) (now : Int) : BotState × List Effect :=
  let ctx : Ctx := ⟨env, some userId, chat, tr, now⟩
  let sess := lookupSession bs.sessions userId
  let r : StepResult :=
    match commandOf text with
    | some cmd =>
      if cmd = "start" then showMenu ctx bs.store sess
      else if cmd = "help" then helpCommand ctx bs.store sess
      else if cmd = "menu" then showMenu ctx bs.store sess
      else if cmd = "cancel" then cancelCommand bs.store
      else if cmd = "stock" then stockCommand bs.store sess
      else if cmd = "list" then stockCommand bs.store sess
      else if cmd = "add" then addOfferCommand ctx bs.store sess text
      else if cmd = "setqty" then setQuantityCommand ctx bs.store sess text
      else if cmd = "setprice" then setPriceCommand ctx bs.store sess text
      else if cmd = "soldout" then soldOutCommand ctx bs.store sess text
      else if cmd = "remove" then soldOutCommand ctx bs.store sess text
      else if cmd = "announce" then announceCommand ctx bs.store sess text
      else if cmd = "setannounce" then setAnnounceCommand ctx bs.store sess text
      else if cmd = "upload" then uploadCommand ctx bs.store sess
      else ⟨bs.store, sess, []⟩
    | none => handleText ctx bs.store sess text
  (⟨r.store, setSession bs.sessions userId r.session⟩, r.effects)

/-! ## The upload helper (`announcement_stock_bot.py`)

`size_mb = size_bytes / (1024 * 1024)` divides by a power of two, so the
Python float quotient is exact for any realistic size (`< 2^53` bytes);
sizes and the threshold are therefore modelled as exact rationals.  The
two host clients are black boxes: the oracle arguments give the outcome
of each potential call (first and retry, per host). -/

/-- `announcement_stock_bot.UploadResult`. -/
structure UploadResult where
  host : String
  url : String
  success : Bool
  error : Option String
deriving DecidableEq, Repr

/-- `str(exc).replace("\n", " ").strip()`. -/
def cleanErrText (e : String) : String :=
  pyStrip ⟨e.data.map fun c => if c = '\n' then ' ' else c⟩

/-- `AnnouncementUploader._upload_with_retry`: one retry after a first
failure; a second failure is converted into a failure `UploadResult`
carrying the error text in the url slot.  The `Nat` counts the calls
actually made to the host. -/
def uploadWithRetry (host : String) (o1 o2 : Except String String) :
    UploadResult × Nat :=
  match o1 with
  | .ok url => (⟨host, url, true, none⟩, 1)
  | .error _ =>
    match o2 with
    | .ok url => (⟨host, url, true, none⟩, 2)
    | .error e2 =>
      let t := cleanErrText e2
      (⟨host, "Upload failed: " ++ t, false, some t⟩, 2)

/-- `AnnouncementUploader.upload`: route by `size_mb <= threshold_mb` to
Catbox, else Gofile; the second component lists the host of every call
made, in order. -/
def uploaderUpload (thresholdMB : ℚ) (sizeBytes : Nat)
    (cat1 cat2 go1 go2 : Except String String) :
    UploadResult × List String :=
  if (sizeBytes : ℚ) / 1048576 ≤ thresholdMB then
    let r := uploadWithRetry "Catbox" cat1 cat2
    (r.1, List.replicate r.2 "Catbox")
  else
    let r := uploadWithRetry "Gofile" go1 go2
    (r.1, List.replicate r.2 "Gofile")

/-- `announcement_stock_bot.FileMetrics` (derived by `_scan_file`). -/
structure FileMetrics where
  filename : String
  totalLines : Nat
  validUlp : Nat
  sizeBytes : Nat
deriving DecidableEq, Repr

/-- Python `f"{n:,}"`: decimal digits grouped by thousands.  The input
list is little-endian; a separator precedes every third digit. -/
def commaLE : Nat → List Char → List Char
  | _, [] => []
  | i, c :: cs =>
    (if 0 < i ∧ i % 3 = 0 then [','] else []) ++ c :: commaLE (i + 1) cs

/-- Python `f"{n:,}"` for a natural number. -/
def commaFormat (n : Nat) : String :=
  ⟨(commaLE 0 ((toDigitsBE n).map digitChar).reverse).reverse⟩

/-- Round a rational half-even to an integer (float formatting on an
exactly representable value). -/
def roundHalfEvenQ (q : ℚ) : Int :=
  let f := Int.floor q
  if q - f < 1 / 2 then f
  else if 1 / 2 < q - f then f + 1
  else if 2 ∣ f then f else f + 1

/-- Python `f"{x:.2f}"` for a non-negative exact value. -/
def format2f (q : ℚ) : String :=
  let m := (roundHalfEvenQ (q * 100)).toNat
  natToString (m / 100) ++ "." ++ pad2 (m % 100)

/-- `announcement_stock_bot._format_display_count` for the string case
(an integer display count renders via `commaFormat`). -/
def formatDisplayCount (displayCount : String) : String :=
  pyStrip displayCount

/-- `announcement_stock_bot._resolve_header`. -/
def resolveHeader (customHeader : Option String)
    (displayCount : Option String) (metrics : FileMetrics) : String :=
  match customHeader with
  | some h =>
    if h ≠ "" then cleanErrText h
    else
      match displayCount with
      | some d =>
        "Total lines on this are " ++ formatDisplayCount d
          ++ ", but here is " ++ commaFormat metrics.totalLines
      | none => "New Sample!"
  | none =>
    match displayCount with
    | some d =>
      "Total lines on this are " ++ formatDisplayCount d
        ++ ", but here is " ++ commaFormat metrics.totalLines
    | none => "New Sample!"

/-- The lines of `announcement_stock_bot._build_message`, in order. -/
def buildMessageLines (header : String) (metrics : FileMetrics)
    (u : UploadResult) (timestamp : String) : List String :=
  [header,
   "File: " ++ metrics.filename,
   "Valid ULP: " ++ commaFormat metrics.validUlp,
   "Valid Lines: " ++ commaFormat metrics.totalLines,
   "Size: " ++ format2f ((metrics.sizeBytes : ℚ) / 1048576) ++ " MB",
   u.host ++ ": " ++ u.url,
   "Success: " ++ (if u.success then "1/1" else "0/1"),
   "Time: " ++ timestamp]

/-- `announcement_stock_bot._build_message`. -/
def buildMessage (header : String) (metrics : FileMetrics)
    (u : UploadResult) (timestamp : String) : String :=
  String.intercalate "\n" (buildMessageLines header metrics u timestamp)

/-- The per-file body of `announcement_stock_bot.generate_announcement`:
upload, resolve the header, build the message.  It always produces a
message — upload failure is embedded, not raised. -/
def generateAnnouncementOne (thresholdMB : ℚ) (metrics : FileMetrics)
    (customHeader : Option String) (displayCount : Option String)
    (timestamp : String) (cat1 cat2 go1 go2 : Except String String) :
    String :=
  let u := uploaderUpload thresholdMB metrics.sizeBytes cat1 cat2 go1 go2
  buildMessage (resolveHeader customHeader displayCount metrics) metrics u.1
    timestamp

/-! ## Observables and invariants used by the verification -/

/-- Is this effect an outbound `send_message` call? -/
def Effect.isSend : Effect → Bool
  | .sendMessage _ _ => true
  | _ => false

/-- Is this effect an outbound `delete_message` call? -/
def Effect.isDelete : Effect → Bool
  | .deleteMessage _ _ => true
  | _ => false

/-- Is this effect an `attach_announcement` repository write? -/
def Effect.isAttach : Effect → Bool
  | .attachAnnouncement _ _ _ => true
  | _ => false

/-- Number of announcement-delete attempts in a trace. -/
def countDeletes (l : List Effect) : Nat := (l.filter Effect.isDelete).length

/-- Number of announcement-send attempts in a trace. -/
def countSends (l : List Effect) : Nat := (l.filter Effect.isSend).length

/-- The data-model invariant: a sold-out offer is never active. -/
def StoreInv (s : OfferStore) : Prop :=
  ∀ o ∈ s.offers, o.quantity = 0 → o.active = false

/-- Flow sessions only ever hold a validated positive quantity when they
are about to create an offer. -/
def sessionQtyOk (sess : Session) : Bool :=
  match sess.tag with
  | .addPrice =>
    match sess.data.quantity with
    | some q => decide (0 < q)
    | none => false
  | _ => true

/-- The inductive invariant over the whole process state. -/
def StateInv (bs : BotState) : Prop :=
  StoreInv bs.store ∧ ∀ p ∈ bs.sessions, sessionQtyOk p.2 = true

/-- One handler invocation respects the invariant: the store invariant
holds afterwards and any session it leaves behind is well-formed. -/
def StepOk (r : StepResult) : Prop :=
  StoreInv r.store ∧ ∀ s', r.session = some s' → sessionQtyOk s' = true

/-- The process state right after startup: empty database (AUTOINCREMENT
starts at 1), no flow sessions. -/
def initialBotState : BotState := ⟨⟨[], 1, []⟩, []⟩

end AnnouncementBot

namespace AnnouncementBot

/-! # Theorems

Infrastructure lemmas about digits, parsing and the store, followed by
one theorem (plus witness / counterexample) per specification claim. -/

theorem digitsFuel_eq_digits :
    ∀ f n, n ≤ f → digitsFuel f n = Nat.digits 10 n := by
  intro f
  induction f with
  | zero => intro n hn; interval_cases n; simp [digitsFuel]
  | succ f ih =>
    intro n hn
    match n with
    | 0 => simp [digitsFuel]
    | m + 1 =>
      rw [digitsFuel, Nat.digits_def' (by norm_num : 1 < 10) (Nat.succ_pos m)]
      congr 1
      exact ih _ (Nat.le_of_lt_succ (Nat.lt_of_lt_of_le
        (Nat.div_lt_self (Nat.succ_pos m) (by norm_num)) hn))

theorem digitsLE_eq_digits (n : Nat) : digitsLE n = Nat.digits 10 n :=
  digitsFuel_eq_digits n n le_rfl

theorem foldl_digits_arith (ys : List Nat) :
    ∀ a, ys.foldl (fun acc d => 10 * acc + d) a
      = a * 10 ^ ys.length + ofDigitsBE ys := by
  induction ys with
  | nil => intro a; simp [ofDigitsBE]
  | cons y t ih =>
    intro a
    show List.foldl _ (10 * a + y) t = _
    rw [ih (10 * a + y)]
    have h2 : ofDigitsBE (y :: t) = y * 10 ^ t.length + ofDigitsBE t := by
      show List.foldl _ (10 * 0 + y) t = _
      rw [ih (10 * 0 + y)]
      ring_nf
    rw [h2]
    simp [List.length_cons]
    ring

theorem ofDigitsBE_append (xs ys : List Nat) :
    ofDigitsBE (xs ++ ys) = ofDigitsBE xs * 10 ^ ys.length + ofDigitsBE ys := by
  unfold ofDigitsBE
  rw [List.foldl_append]
  exact foldl_digits_arith ys _

theorem ofDigitsBE_reverse (L : List Nat) :
    ofDigitsBE L.reverse = Nat.ofDigits 10 L := by
  induction L with
  | nil => simp [ofDigitsBE]
  | cons d t ih =>
    rw [List.reverse_cons, ofDigitsBE_append, ih, Nat.ofDigits_cons]
    simp [ofDigitsBE]
    ring

theorem ofDigitsBE_toDigitsBE (n : Nat) : ofDigitsBE (toDigitsBE n) = n := by
  unfold toDigitsBE
  by_cases h : n = 0
  · simp [h, ofDigitsBE]
  · rw [if_neg h, digitsLE_eq_digits, ofDigitsBE_reverse, Nat.ofDigits_digits]

theorem toDigitsBE_ne_nil (n : Nat) : toDigitsBE n ≠ [] := by
  unfold toDigitsBE
  by_cases h : n = 0
  · simp [h]
  · rw [if_neg h, digitsLE_eq_digits]
    simp [Nat.digits_ne_nil_iff_ne_zero, h]

theorem toDigitsBE_lt (n : Nat) : ∀ d ∈ toDigitsBE n, d < 10 := by
  unfold toDigitsBE
  by_cases h : n = 0
  · simp [h]
  · rw [if_neg h, digitsLE_eq_digits]
    intro d hd
    exact Nat.digits_lt_base (by norm_num) (List.mem_reverse.mp hd)

theorem digitVal?_digitChar {d : Nat} (h : d < 10) :
    digitVal? (digitChar d) = some d := by
  interval_cases d <;> decide

theorem digit_not_special {c : Char} {d : Nat} (h : digitVal? c = some d) :
    c ≠ '-' ∧ c ≠ '+' ∧ c ≠ '.' ∧ c ≠ 'e' ∧ c ≠ 'E' := by
  unfold digitVal? at h
  split at h
  · next hc =>
    refine ⟨?_, ?_, ?_, ?_, ?_⟩ <;> (rintro rfl; revert hc; decide)
  · exact absurd h (by simp)

theorem numDigits_le_of_le {a b : Nat} (h : a ≤ b) :
    numDigits a ≤ numDigits b := by
  unfold numDigits
  rw [digitsLE_eq_digits, digitsLE_eq_digits]
  exact Nat.le_digits_len_le 10 a b h

theorem spanDigits_map_append (L : List Nat) (rest : List Char)
    (hL : ∀ d ∈ L, d < 10)
    (hrest : match rest with
      | [] => True
      | c :: _ => digitVal? c = none) :
    spanDigits (L.map digitChar ++ rest) = (L, rest) := by
  induction L with
  | nil =>
    match rest with
    | [] => rfl
    | c :: t =>
      simp only [List.map_nil, List.nil_append, spanDigits]
      rw [hrest]
  | cons d t ih =>
    have hd : digitVal? (digitChar d) = some d :=
      digitVal?_digitChar (hL d (List.mem_cons_self d t))
    have ht := ih fun x hx => hL x (List.mem_cons_of_mem d hx)
    simp only [List.map_cons, List.cons_append, spanDigits, hd]
    simp [List.append_eq, ht]

theorem stripSign_digit_head {c : Char} {d : Nat} (h : digitVal? c = some d)
    (rest : List Char) : stripSign (c :: rest) = (false, c :: rest) := by
  obtain ⟨h1, h2, -⟩ := digit_not_special h
  simp [stripSign, h1, h2]

theorem parseDecimal_natToString (n : Nat) :
    parseDecimal (natToString n) = some ⟨false, n, 0⟩ := by
  have hdata : (natToString n).data = (toDigitsBE n).map digitChar := rfl
  obtain ⟨d0, tl, hd⟩ : ∃ d0 tl, toDigitsBE n = d0 :: tl := by
    match h : toDigitsBE n with
    | [] => exact absurd h (toDigitsBE_ne_nil n)
    | d0 :: tl => exact ⟨d0, tl, rfl⟩
  have hd0 : digitVal? (digitChar d0) = some d0 :=
    digitVal?_digitChar (toDigitsBE_lt n d0 (hd ▸ List.mem_cons_self d0 tl))
  have hspan : spanDigits ((toDigitsBE n).map digitChar)
      = (toDigitsBE n, []) := by
    have := spanDigits_map_append (toDigitsBE n) [] (toDigitsBE_lt n)
      (by trivial)
    simpa using this
  unfold parseDecimal
  rw [hdata, hd]
  simp only [List.map_cons]
  rw [stripSign_digit_head hd0]
  simp only []
  rw [← List.map_cons, ← hd, hspan]
  simp only [afterPoint]
  rw [if_neg (by simp [hd])]
  simp only [parseTail, List.append_nil, List.length_nil]
  rw [ofDigitsBE_toDigitsBE]
  norm_num

theorem parseDecimal_frac (a : Nat) (ds : List Nat)
    (hlt : ∀ d ∈ ds, d < 10) :
    parseDecimal (natToString a ++ "." ++ (⟨ds.map digitChar⟩ : String))
      = some ⟨false, a * 10 ^ ds.length + ofDigitsBE ds, -(ds.length : Int)⟩ := by
  have hdata : (natToString a ++ "." ++ (⟨ds.map digitChar⟩ : String)).data
      = (toDigitsBE a).map digitChar ++ ('.' :: ds.map digitChar) := by
    show ((toDigitsBE a).map digitChar ++ ['.']) ++ ds.map digitChar = _
    simp
  obtain ⟨d0, tl, hd⟩ : ∃ d0 tl, toDigitsBE a = d0 :: tl := by
    match h : toDigitsBE a with
    | [] => exact absurd h (toDigitsBE_ne_nil a)
    | d0 :: tl => exact ⟨d0, tl, rfl⟩
  have hd0 : digitVal? (digitChar d0) = some d0 :=
    digitVal?_digitChar (toDigitsBE_lt a d0 (hd ▸ List.mem_cons_self d0 tl))
  have hspan1 : spanDigits ((toDigitsBE a).map digitChar ++ ('.' :: ds.map digitChar))
      = (toDigitsBE a, '.' :: ds.map digitChar) :=
    spanDigits_map_append (toDigitsBE a) ('.' :: ds.map digitChar)
      (toDigitsBE_lt a) (by show digitVal? ('.' : Char) = none; decide)
  have hspan2 : spanDigits (ds.map digitChar) = (ds, []) := by
    have := spanDigits_map_append ds [] hlt (by trivial)
    simpa using this
  have hafter : afterPoint ('.' :: ds.map digitChar) = (ds, []) := by
    simp [afterPoint, hspan2]
  have hcons : (toDigitsBE a).map digitChar ++ ('.' :: ds.map digitChar)
      = digitChar d0 :: (tl.map digitChar ++ ('.' :: ds.map digitChar)) := by
    rw [hd]; simp
  unfold parseDecimal
  rw [hdata]
  rw [hcons, stripSign_digit_head hd0, ← hcons]
  dsimp only
  rw [hspan1]
  dsimp only
  rw [hafter]
  dsimp only
  rw [if_neg (by simp [hd])]
  simp only [parseTail]
  rw [ofDigitsBE_append, ofDigitsBE_toDigitsBE]

theorem divRHE_exact {c p : Nat} (h : 10 ^ p ∣ c) : divRHE c p = c / 10 ^ p := by
  have hpos : 0 < 10 ^ p := Nat.pos_pow_of_pos p (by norm_num)
  have hr : c % 10 ^ p = 0 := by
    obtain ⟨k, rfl⟩ := h
    exact Nat.mul_mod_right _ _
  simp only [divRHE]
  rw [hr]
  simp [hpos]

theorem normalize_natToString (n : Nat) (h0 : 0 < n)
    (h28 : numDigits n ≤ 28) :
    normalize_price (natToString n) = .ok (natToString n) := by
  have hnp : (⟨false, n, 0⟩ : Dec).nonpos = false := by
    simp [Dec.nonpos, Nat.pos_iff_ne_zero.mp h0]
  have hint : (⟨false, n, 0⟩ : Dec).isIntegral = true := by
    simp [Dec.isIntegral]
  have hq : (⟨false, n, 0⟩ : Dec).quantize 0 = some ⟨false, n, 0⟩ := by
    simp only [Dec.quantize]
    norm_num [h28]
  unfold normalize_price
  rw [parseDecimal_natToString n]
  simp [hnp, hint, hq]

theorem digitChar_ne_dot {d : Nat} (h : d < 10) : digitChar d ≠ '.' := by
  interval_cases d <;> decide

theorem digitChar_ne_zero {d : Nat} (h : d < 10) (h0 : d ≠ 0) :
    digitChar d ≠ '0' := by
  interval_cases d
  · exact absurd rfl h0
  all_goals decide

theorem rev_map_digitChar_head (a : Nat) :
    ∃ d rest, d < 10 ∧
      ((toDigitsBE a).map digitChar).reverse = digitChar d :: rest := by
  obtain ⟨x, xs, hx⟩ : ∃ x xs, (toDigitsBE a).reverse = x :: xs := by
    match h : (toDigitsBE a).reverse with
    | [] =>
      have : toDigitsBE a = [] := by
        have := congrArg List.reverse h
        simpa using this
      exact absurd this (toDigitsBE_ne_nil a)
    | x :: xs => exact ⟨x, xs, rfl⟩
  refine ⟨x, xs.map digitChar, ?_, ?_⟩
  · exact toDigitsBE_lt a x
      (List.mem_reverse.mp (hx ▸ List.mem_cons_self x xs))
  · rw [← List.map_reverse, hx, List.map_cons]

/-- The double strip applied to the fractional rendering, case `.00`:
both zeros and the point are stripped. -/
theorem strip2_frac00 (a : Nat) :
    rstripChar (rstripChar (natToString a ++ "." ++ pad2 0) '0') '.'
      = natToString a := by
  obtain ⟨d, rest, hd10, hrev⟩ := rev_map_digitChar_head a
  have hdata : (natToString a ++ "." ++ pad2 0).data
      = (toDigitsBE a).map digitChar ++ ['.', '0', '0'] := by
    show ((toDigitsBE a).map digitChar ++ ['.']) ++ ['0', '0'] = _
    simp
  unfold rstripChar
  rw [hdata]
  rw [List.reverse_reverse]
  rw [show ((toDigitsBE a).map digitChar ++ ['.', '0', '0']).reverse
      = '0' :: '0' :: '.' :: ((toDigitsBE a).map digitChar).reverse by simp]
  rw [List.dropWhile_cons_of_pos (by decide),
      List.dropWhile_cons_of_pos (by decide),
      List.dropWhile_cons_of_neg (by decide)]
  rw [List.dropWhile_cons_of_pos (by decide)]
  rw [hrev, List.dropWhile_cons_of_neg (by simp [digitChar_ne_dot hd10]),
      ← hrev, List.reverse_reverse]
  rfl

/-- The double strip, case trailing digit zero but tens digit nonzero:
only the final zero is stripped and the point survives. -/
theorem strip2_frac_d0 (a d1 : Nat) (h1 : d1 ≠ 0) (h10 : d1 < 10) :
    rstripChar (rstripChar (natToString a ++ "." ++ pad2 (10 * d1)) '0') '.'
      = natToString a ++ "." ++ (⟨[digitChar d1]⟩ : String) := by
  have hpad : pad2 (10 * d1) = ⟨[digitChar d1, '0']⟩ := by
    unfold pad2
    rw [Nat.mul_div_cancel_left d1 (by norm_num), Nat.mul_mod_right]
    rfl
  have hdata : (natToString a ++ "." ++ pad2 (10 * d1)).data
      = (toDigitsBE a).map digitChar ++ ['.', digitChar d1, '0'] := by
    rw [hpad]
    show ((toDigitsBE a).map digitChar ++ ['.']) ++ [digitChar d1, '0'] = _
    simp
  have htgt : (natToString a ++ "." ++ (⟨[digitChar d1]⟩ : String)).data
      = (toDigitsBE a).map digitChar ++ ['.', digitChar d1] := by
    show ((toDigitsBE a).map digitChar ++ ['.']) ++ [digitChar d1] = _
    simp
  unfold rstripChar
  rw [hdata, List.reverse_reverse]
  rw [show ((toDigitsBE a).map digitChar ++ ['.', digitChar d1, '0']).reverse
      = '0' :: digitChar d1 :: '.' :: ((toDigitsBE a).map digitChar).reverse
      by simp]
  rw [List.dropWhile_cons_of_pos (by decide),
      List.dropWhile_cons_of_neg (by simp [digitChar_ne_zero h10 h1])]
  rw [List.dropWhile_cons_of_neg (by simp [digitChar_ne_dot h10])]
  apply congrArg String.mk
  rw [show (digitChar d1 :: '.' :: ((toDigitsBE a).map digitChar).reverse).reverse
      = (toDigitsBE a).map digitChar ++ ['.', digitChar d1] by simp]
  exact htgt.symm

/-- The double strip, case trailing digit nonzero: nothing is stripped. -/
theorem strip2_frac_nz (a b : Nat) (h0 : b % 10 ≠ 0) :
    rstripChar (rstripChar (natToString a ++ "." ++ pad2 b) '0') '.'
      = natToString a ++ "." ++ pad2 b := by
  have hlt : b % 10 < 10 := Nat.mod_lt b (by norm_num)
  have hdata : (natToString a ++ "." ++ pad2 b).data
      = (toDigitsBE a).map digitChar
        ++ ['.', digitChar (b / 10), digitChar (b % 10)] := by
    show ((toDigitsBE a).map digitChar ++ ['.']) ++ _ = _
    simp [pad2]
  unfold rstripChar
  rw [hdata, List.reverse_reverse]
  rw [show ((toDigitsBE a).map digitChar
        ++ ['.', digitChar (b / 10), digitChar (b % 10)]).reverse
      = digitChar (b % 10) :: digitChar (b / 10) :: '.'
        :: ((toDigitsBE a).map digitChar).reverse by simp]
  rw [List.dropWhile_cons_of_neg (by simp [digitChar_ne_zero hlt h0])]
  rw [List.dropWhile_cons_of_neg (by simp [digitChar_ne_dot hlt])]
  apply congrArg String.mk
  rw [show (digitChar (b % 10) :: digitChar (b / 10) :: '.'
        :: ((toDigitsBE a).map digitChar).reverse).reverse
      = (toDigitsBE a).map digitChar
        ++ ['.', digitChar (b / 10), digitChar (b % 10)] by simp]
  exact hdata.symm

theorem ofDigitsBE_one (d : Nat) : ofDigitsBE [d] = d := by
  simp [ofDigitsBE]

theorem ofDigitsBE_two (x y : Nat) : ofDigitsBE [x, y] = 10 * x + y := by
  show (10 * (10 * 0 + x) + y) = _
  ring

theorem quantize_exp_neg1 (ng : Bool) (n : Nat)
    (h28 : numDigits (n * 10) ≤ 28) :
    Dec.quantize ⟨ng, n, -1⟩ (-2) = some ⟨ng, n * 10, -2⟩ := by
  simp only [Dec.quantize]
  norm_num [h28]

theorem quantize_same_exp (ng : Bool) (n : Nat) (e : Int)
    (h28 : numDigits n ≤ 28) :
    Dec.quantize ⟨ng, n, e⟩ e = some ⟨ng, n, e⟩ := by
  simp only [Dec.quantize]
  norm_num [h28]

theorem isIntegral_neg_exp_false (n p : Nat) (hp : 0 < p)
    (h : ¬ (10 ^ p ∣ n)) :
    Dec.isIntegral ⟨false, n, -(p : Int)⟩ = false := by
  simp only [Dec.isIntegral]
  rw [if_neg (by omega)]
  simpa using h

/-- Re-normalizing `a.d1` (tens digit `d1 ≠ 0` after the point) returns
it unchanged. -/
theorem normalize_frac_d0 (a d1 : Nat) (h1 : d1 ≠ 0) (h10 : d1 < 10)
    (h28 : numDigits (100 * a + 10 * d1) ≤ 28) :
    normalize_price (natToString a ++ "." ++ (⟨[digitChar d1]⟩ : String))
      = .ok (natToString a ++ "." ++ (⟨[digitChar d1]⟩ : String)) := by
  have hp : parseDecimal (natToString a ++ "." ++ (⟨[digitChar d1]⟩ : String))
      = some ⟨false, 10 * a + d1, -1⟩ := by
    have h := parseDecimal_frac a [d1]
      (by intro x hx; simp at hx; omega)
    rw [show ([d1] : List Nat).map digitChar = [digitChar d1] from rfl] at h
    rw [h, ofDigitsBE_one]
    norm_num
    ring
  have hnz : 10 * a + d1 ≠ 0 := by omega
  have hnp : (⟨false, 10 * a + d1, -1⟩ : Dec).nonpos = false := by
    simp [Dec.nonpos, hnz]
  have hint : (⟨false, 10 * a + d1, -1⟩ : Dec).isIntegral = false := by
    have := isIntegral_neg_exp_false (10 * a + d1) 1 (by norm_num)
      (by simp; omega)
    simpa using this
  have hq : (⟨false, 10 * a + d1, -1⟩ : Dec).quantize (-2)
      = some ⟨false, 100 * a + 10 * d1, -2⟩ := by
    have := quantize_exp_neg1 false (10 * a + d1)
      (by rw [show (10 * a + d1) * 10 = 100 * a + 10 * d1 by ring]; exact h28)
    rw [show (10 * a + d1) * 10 = 100 * a + 10 * d1 by ring] at this
    exact this
  have hdiv : (100 * a + 10 * d1) / 100 = a := by omega
  have hmod : (100 * a + 10 * d1) % 100 = 10 * d1 := by omega
  unfold normalize_price
  rw [hp]
  simp only [hnp, hint, hq, Bool.false_eq_true, if_false]
  rw [hdiv, hmod, strip2_frac_d0 a d1 h1 h10]

/-- Re-normalizing `a.d1d2` with `d2 ≠ 0` returns it unchanged. -/
theorem normalize_frac_nz (a b : Nat) (hb : b < 100) (h0 : b % 10 ≠ 0)
    (h28 : numDigits (100 * a + b) ≤ 28) :
    normalize_price (natToString a ++ "." ++ pad2 b)
      = .ok (natToString a ++ "." ++ pad2 b) := by
  have hp : parseDecimal (natToString a ++ "." ++ pad2 b)
      = some ⟨false, 100 * a + b, -2⟩ := by
    have h := parseDecimal_frac a [b / 10, b % 10]
      (by intro x hx; simp at hx; rcases hx with h | h <;> omega)
    rw [show ([b / 10, b % 10] : List Nat).map digitChar
        = [digitChar (b / 10), digitChar (b % 10)] from rfl] at h
    rw [show (⟨[digitChar (b / 10), digitChar (b % 10)]⟩ : String) = pad2 b
        from rfl] at h
    rw [h, ofDigitsBE_two]
    norm_num
    omega
  have hnz : 100 * a + b ≠ 0 := by omega
  have hnp : (⟨false, 100 * a + b, -2⟩ : Dec).nonpos = false := by
    simp [Dec.nonpos, hnz]
  have hint : (⟨false, 100 * a + b, -2⟩ : Dec).isIntegral = false := by
    have := isIntegral_neg_exp_false (100 * a + b) 2 (by norm_num)
      (by simp; omega)
    simpa using this
  have hq : (⟨false, 100 * a + b, -2⟩ : Dec).quantize (-2)
      = some ⟨false, 100 * a + b, -2⟩ := quantize_same_exp _ _ _ h28
  have hdiv : (100 * a + b) / 100 = a := by omega
  have hmod : (100 * a + b) % 100 = b := by omega
  unfold normalize_price
  rw [hp]
  simp only [hnp, hint, hq, Bool.false_eq_true, if_false]
  rw [hdiv, hmod, strip2_frac_nz a b h0]

theorem quantize_some_elim {d : Dec} {e : Int} {q : Dec}
    (h : d.quantize e = some q) :
    q.neg = d.neg ∧ q.exp = e ∧ numDigits q.coeff ≤ 28 ∧
      (e ≤ d.exp → q.coeff = d.coeff * 10 ^ (d.exp - e).toNat) ∧
      (¬ e ≤ d.exp → q.coeff = divRHE d.coeff (e - d.exp).toNat) := by
  simp only [Dec.quantize] at h
  by_cases he : e ≤ d.exp
  · rw [if_pos he] at h
    split at h
    · next h28 =>
      obtain rfl := Option.some.inj h
      exact ⟨rfl, rfl, h28, fun _ => rfl, fun hne => absurd he hne⟩
    · exact absurd h (by simp)
  · rw [if_neg he] at h
    split at h
    · next h28 =>
      obtain rfl := Option.some.inj h
      exact ⟨rfl, rfl, h28, fun hle => absurd hle he, fun _ => rfl⟩
    · exact absurd h (by simp)

/-- C4 (amended): on every input where `normalize_price` succeeds with an
output other than `"0"`, applying `normalize_price` to that output
succeeds and returns it unchanged. -/
theorem normalize_price_idempotent_on_success :
    ∀ s r, normalize_price s = .ok r → r ≠ "0" →
      normalize_price r = .ok r := by
  intro s r h hr
  unfold normalize_price at h
  cases hp : parseDecimal s with
  | none => rw [hp] at h; exact absurd h (by simp)
  | some d =>
    rw [hp] at h
    dsimp only at h
    by_cases hnp : d.nonpos = true
    · rw [if_pos hnp] at h; exact absurd h (by simp)
    · rw [if_neg hnp] at h
      have hcoeff : d.coeff ≠ 0 := by
        intro h0
        exact hnp (by simp [Dec.nonpos, h0])
      by_cases hint : d.isIntegral = true
      · -- integral branch: the output is a bare positive integer string
        rw [if_pos hint] at h
        cases hq : d.quantize 0 with
        | none => rw [hq] at h; exact absurd h (by simp)
        | some q =>
          rw [hq] at h
          dsimp only at h
          simp only [Except.ok.injEq] at h
          subst h
          obtain ⟨-, -, h28, hcle, hcgt⟩ := quantize_some_elim hq
          have hpos : 0 < q.coeff := by
            by_cases hle : (0 : Int) ≤ d.exp
            · rw [hcle hle]
              exact Nat.mul_pos (Nat.pos_of_ne_zero hcoeff)
                (Nat.pos_pow_of_pos _ (by norm_num))
            · have hdvd : 10 ^ (-d.exp).toNat ∣ d.coeff := by
                simp only [Dec.isIntegral] at hint
                rw [if_neg hle] at hint
                exact of_decide_eq_true hint
              rw [hcgt hle]
              rw [show ((0 : Int) - d.exp).toNat = (-d.exp).toNat by omega]
              rw [divRHE_exact hdvd]
              exact Nat.div_pos
                (Nat.le_of_dvd (Nat.pos_of_ne_zero hcoeff) hdvd)
                (Nat.pos_pow_of_pos _ (by norm_num))
          exact normalize_natToString q.coeff hpos h28
      · -- fractional branch: output is the stripped 2-decimal rendering
        rw [if_neg hint] at h
        cases hq : d.quantize (-2) with
        | none => rw [hq] at h; exact absurd h (by simp)
        | some q =>
          rw [hq] at h
          dsimp only at h
          simp only [Except.ok.injEq] at h
          subst h
          obtain ⟨-, -, h28, -, -⟩ := quantize_some_elim hq
          by_cases hm0 : q.coeff = 0
          · -- the output is "0", excluded by hypothesis
            rw [hm0] at hr
            exact absurd (by decide :
              rstripChar (rstripChar
                (natToString ((0 : Nat) / 100) ++ "." ++ pad2 ((0 : Nat) % 100))
                '0') '.' = "0") hr
          · by_cases hb0 : q.coeff % 100 = 0
            · -- `.00`: the strips leave a bare integer string
              rw [hb0, strip2_frac00] at hr ⊢
              have hane : q.coeff / 100 ≠ 0 := by omega
              have hle : numDigits (q.coeff / 100) ≤ 28 :=
                le_trans (numDigits_le_of_le (Nat.div_le_self _ _)) h28
              exact normalize_natToString _ (Nat.pos_of_ne_zero hane) hle
            · by_cases hd2 : q.coeff % 100 % 10 = 0
              · -- `.d0`: the trailing zero is stripped
                have hb : q.coeff % 100 = 10 * (q.coeff % 100 / 10) := by omega
                have h1 : q.coeff % 100 / 10 ≠ 0 := by omega
                have h10 : q.coeff % 100 / 10 < 10 := by omega
                rw [hb, strip2_frac_d0 _ _ h1 h10] at hr ⊢
                have hsum : 100 * (q.coeff / 100) + 10 * (q.coeff % 100 / 10)
                    = q.coeff := by omega
                exact normalize_frac_d0 _ _ h1 h10 (by rw [hsum]; exact h28)
              · -- `.d1d2` with nonzero last digit: nothing stripped
                rw [strip2_frac_nz _ _ hd2] at hr ⊢
                have hsum : 100 * (q.coeff / 100) + q.coeff % 100
                    = q.coeff := by omega
                exact normalize_frac_nz _ _ (Nat.mod_lt _ (by norm_num)) hd2
                  (by rw [hsum]; exact h28)

/-- C4 (counterexample): `"0.005"` denotes a value strictly greater than
zero, yet `normalize_price` rounds it half-even to `"0"`, on which a
second application raises `ValueError` instead of returning `"0"` — so
`normalize_price (normalize_price "0.005")` is not `normalize_price
"0.005"`. -/
theorem normalize_price_not_idempotent_at_0_005 :
    normalize_price "0.005" = .ok "0" ∧
      normalize_price "0"
        = .error (.valueError "Price must be greater than zero") :=
  ⟨by decide, by decide⟩

/-- C4 (witness): the amended idempotence at `9.999 ↦ 10`. -/
theorem normalize_price_idempotent_on_success_witness :
    normalize_price "9.999" = .ok "10" ∧ normalize_price "10" = .ok "10" :=
  ⟨by decide,
   normalize_price_idempotent_on_success "9.999" "10" (by decide) (by decide)⟩

/-! ## Repository lemmas -/

theorem find?_map_update (l : List Offer) (i : Int) (f : Offer → Offer)
    (hf : ∀ o, (f o).id = o.id) :
    (l.map fun o => if o.id = i then f o else o).find? (fun o => o.id = i)
      = (l.find? (fun o => o.id = i)).map f := by
  induction l with
  | nil => rfl
  | cons c t ih =>
    by_cases hc : c.id = i
    · simp [List.find?, hc, hf]
    · simp only [List.map_cons, if_neg hc, List.find?]
      rw [show (decide (c.id = i)) = false by simp [hc]]
      exact ih

theorem find?_map_update_other (l : List Offer) (i j : Int) (f : Offer → Offer)
    (hf : ∀ o, (f o).id = o.id) (hij : j ≠ i) :
    (l.map fun o => if o.id = i then f o else o).find? (fun o => o.id = j)
      = l.find? (fun o => o.id = j) := by
  induction l with
  | nil => rfl
  | cons c t ih =>
    by_cases hc : c.id = i
    · have hcj : ¬ (c.id = j) := by rw [hc]; exact fun h => hij h.symm
      have hfj : ¬ ((f c).id = j) := by rw [hf c]; exact hcj
      simp only [List.map_cons, if_pos hc, List.find?]
      rw [show (decide ((f c).id = j)) = false by simp [hfj],
        show (decide (c.id = j)) = false by simp [hcj]]
      exact ih
    · simp only [List.map_cons, if_neg hc, List.find?]
      by_cases hcj : c.id = j
      · rw [show (decide (c.id = j)) = true by simp [hcj]]
      · rw [show (decide (c.id = j)) = false by simp [hcj]]
        exact ih

theorem get_offer_updateWhere_self (s : OfferStore) (i : Int)
    (f : Offer → Offer) (hf : ∀ o, (f o).id = o.id) :
    (s.updateWhere i f).2.get_offer i = (s.get_offer i).map f :=
  find?_map_update s.offers i f hf

theorem get_offer_updateWhere_other (s : OfferStore) (i j : Int)
    (f : Offer → Offer) (hf : ∀ o, (f o).id = o.id) (hij : j ≠ i) :
    (s.updateWhere i f).2.get_offer j = s.get_offer j :=
  find?_map_update_other s.offers i j f hf hij

theorem get_offer_update_quantity_self (s : OfferStore) (i q : Int) :
    (s.update_quantity i q).2.get_offer i
      = (s.get_offer i).map fun o => { o with quantity := q } :=
  get_offer_updateWhere_self s i _ fun _ => rfl

theorem get_offer_set_active_self (s : OfferStore) (i : Int) (b : Bool) :
    (s.set_active i b).2.get_offer i
      = (s.get_offer i).map fun o => { o with active := b } :=
  get_offer_updateWhere_self s i _ fun _ => rfl

theorem get_offer_update_price_self (s : OfferStore) (i : Int) (p : String) :
    (s.update_price i p).2.get_offer i
      = (s.get_offer i).map fun o => { o with price := p } :=
  get_offer_updateWhere_self s i _ fun _ => rfl

theorem get_offer_attach_self (s : OfferStore) (i c m : Int) :
    (s.attach_announcement i c m).2.get_offer i
      = (s.get_offer i).map fun o =>
          { o with announceChatId := some c, announceMessageId := some m } :=
  get_offer_updateWhere_self s i _ fun _ => rfl

theorem get_offer_update_quantity_other (s : OfferStore) (i j q : Int)
    (hij : j ≠ i) :
    (s.update_quantity i q).2.get_offer j = s.get_offer j :=
  get_offer_updateWhere_other s i j _ (fun _ => rfl) hij

theorem get_offer_set_active_other (s : OfferStore) (i j : Int) (b : Bool)
    (hij : j ≠ i) :
    (s.set_active i b).2.get_offer j = s.get_offer j :=
  get_offer_updateWhere_other s i j _ (fun _ => rfl) hij

theorem get_offer_update_price_other (s : OfferStore) (i j : Int) (p : String)
    (hij : j ≠ i) :
    (s.update_price i p).2.get_offer j = s.get_offer j :=
  get_offer_updateWhere_other s i j _ (fun _ => rfl) hij

theorem get_offer_attach_other (s : OfferStore) (i j c m : Int)
    (hij : j ≠ i) :
    (s.attach_announcement i c m).2.get_offer j = s.get_offer j :=
  get_offer_updateWhere_other s i j _ (fun _ => rfl) hij

/-! ## C1: retire (sold-out) semantics -/

/-- C1: `_mark_sold_out` first writes quantity 0 and active false to the
repository (the first two effects of its trace, before any transport
call), then makes exactly one delete attempt when the offer carries a
bound announcement (both ids present, i.e. non-null and nonzero) and none
otherwise; the repository state change holds for every delete outcome. -/
theorem mark_sold_out_spec :
    ∀ ctx store offer, store.get_offer offer.id = some offer →
      (markSoldOut ctx store offer).1.get_offer offer.id
          = some { offer with quantity := 0, active := false } ∧
      ∃ rest, (markSoldOut ctx store offer).2
          = .updateQuantity offer.id 0 :: .setActive offer.id false :: rest ∧
        countDeletes rest = (if truthyId offer.announceChatId
            && truthyId offer.announceMessageId then 1 else 0) := by
  intro ctx store offer h
  constructor
  · show ((store.update_quantity offer.id 0).2.set_active offer.id false).2.get_offer
        offer.id = _
    rw [get_offer_set_active_self, get_offer_update_quantity_self, h]
    rfl
  · refine ⟨_, rfl, ?_⟩
    by_cases hb : truthyId offer.announceChatId
        && truthyId offer.announceMessageId
    · simp [hb, countDeletes, Effect.isDelete]
    · simp [hb, countDeletes, Effect.isDelete]

/-- C1 (witness): a bound offer retired under a failing delete still ends
at quantity 0, active false, with exactly one delete attempt. -/
theorem mark_sold_out_spec_witness :
    (markSoldOut ⟨⟨[7], none, "LMK if interested."⟩, some 7, 100,
        ⟨.ok 0 0, .failed "boom"⟩, 0⟩
      ⟨[⟨1, "Widget", 5, "10", true, 0, some 5, some 6⟩], 2, []⟩
      ⟨1, "Widget", 5, "10", true, 0, some 5, some 6⟩).1.get_offer 1
      = some ⟨1, "Widget", 0, "10", false, 0, some 5, some 6⟩ ∧
    ∃ rest, (markSoldOut ⟨⟨[7], none, "LMK if interested."⟩, some 7, 100,
        ⟨.ok 0 0, .failed "boom"⟩, 0⟩
      ⟨[⟨1, "Widget", 5, "10", true, 0, some 5, some 6⟩], 2, []⟩
      ⟨1, "Widget", 5, "10", true, 0, some 5, some 6⟩).2
        = .updateQuantity 1 0 :: .setActive 1 false :: rest ∧
      countDeletes rest = 1 :=
  mark_sold_out_spec _ _ _ (by decide)

theorem find?_id_eq :
    ∀ (l : List Offer) (i : Int) (o : Offer),
      l.find? (fun x => x.id = i) = some o → o.id = i := by
  intro l i o h
  induction l with
  | nil => cases h
  | cons c t ih =>
    by_cases hc : c.id = i
    · rw [List.find?_cons_of_pos _ (by simpa using hc)] at h
      cases h
      exact hc
    · rw [List.find?_cons_of_neg _ (by simpa using hc)] at h
      exact ih h

theorem get_offer_id {s : OfferStore} {i : Int} {o : Offer}
    (h : s.get_offer i = some o) : o.id = i :=
  find?_id_eq s.offers i o h

/-! ## C7: re-announce semantics -/

/-- C7: `_send_offer_announcement` succeeds only for an existing active
offer: a missing or inactive offer yields a failure reply and no state
change; a transport failure also changes nothing; on success the offer's
binding is overwritten with the fresh message location, other offers are
untouched, exactly one send and no delete is attempted. -/
theorem send_offer_announcement_spec :
    ∀ ctx store offerId,
      ((store.get_offer offerId = none ∨
          ∃ o, store.get_offer offerId = some o ∧ o.active = false) →
        (sendOfferAnnouncement ctx store offerId).1 = store ∧
        (sendOfferAnnouncement ctx store offerId).2.2 = false ∧
        (sendOfferAnnouncement ctx store offerId).2.1
          = [.reply "Offer not found or inactive."]) ∧
      (∀ offer c m, store.get_offer offerId = some offer →
        offer.active = true → ctx.tr.send = .ok c m →
        (sendOfferAnnouncement ctx store offerId).2.2 = true ∧
        (sendOfferAnnouncement ctx store offerId).1.get_offer offerId
          = some { offer with announceChatId := some c, announceMessageId := some m } ∧
        (∀ j, j ≠ offerId →
          (sendOfferAnnouncement ctx store offerId).1.get_offer j
            = store.get_offer j) ∧
        countDeletes (sendOfferAnnouncement ctx store offerId).2.1 = 0 ∧
        countSends (sendOfferAnnouncement ctx store offerId).2.1 = 1) ∧
      (∀ offer e, store.get_offer offerId = some offer →
        offer.active = true → ctx.tr.send = .failed e →
        (sendOfferAnnouncement ctx store offerId).1 = store ∧
        (sendOfferAnnouncement ctx store offerId).2.2 = false) := by
  intro ctx store offerId
  refine ⟨?_, ?_, ?_⟩
  · rintro (hnone | ⟨o, ho, hact⟩)
    · simp [sendOfferAnnouncement, hnone]
    · simp [sendOfferAnnouncement, ho, hact]
  · intro offer c m h hact hsend
    have hid : offer.id = offerId := get_offer_id h
    simp only [sendOfferAnnouncement, h, hact, Bool.not_true, hsend,
      Bool.false_eq_true, if_false]
    refine ⟨trivial, ?_, ?_, by simp [countDeletes, Effect.isDelete],
      by simp [countSends, Effect.isSend]⟩
    · rw [hid, get_offer_attach_self, h]
      simp [hid, hact]
    · intro j hj
      rw [hid, get_offer_attach_other _ _ _ _ _ hj]
  · intro offer e h hact hsend
    simp [sendOfferAnnouncement, h, hact, hsend]

/-- C7 (witness): re-announcing an active bound offer under a successful
send rebinds it to the new message without touching the old one. -/
theorem send_offer_announcement_spec_witness :
    (sendOfferAnnouncement ⟨⟨[7], none, "LMK if interested."⟩, some 7, 100,
        ⟨.ok 42 99, .ok⟩, 0⟩
      ⟨[⟨3, "Gizmo", 2, "4", true, 0, some 5, some 6⟩], 4, []⟩ 3).2.2 = true ∧
    (sendOfferAnnouncement ⟨⟨[7], none, "LMK if interested."⟩, some 7, 100,
        ⟨.ok 42 99, .ok⟩, 0⟩
      ⟨[⟨3, "Gizmo", 2, "4", true, 0, some 5, some 6⟩], 4, []⟩ 3).1.get_offer 3
      = some ⟨3, "Gizmo", 2, "4", true, 0, some 42, some 99⟩ ∧
    (∀ j, j ≠ 3 →
      (sendOfferAnnouncement ⟨⟨[7], none, "LMK if interested."⟩, some 7, 100,
          ⟨.ok 42 99, .ok⟩, 0⟩
        ⟨[⟨3, "Gizmo", 2, "4", true, 0, some 5, some 6⟩], 4, []⟩ 3).1.get_offer j
        = (⟨[⟨3, "Gizmo", 2, "4", true, 0, some 5, some 6⟩], 4, []⟩ :
            OfferStore).get_offer j) ∧
    countDeletes (sendOfferAnnouncement ⟨⟨[7], none, "LMK if interested."⟩,
        some 7, 100, ⟨.ok 42 99, .ok⟩, 0⟩
      ⟨[⟨3, "Gizmo", 2, "4", true, 0, some 5, some 6⟩], 4, []⟩ 3).2.1 = 0 ∧
    countSends (sendOfferAnnouncement ⟨⟨[7], none, "LMK if interested."⟩,
        some 7, 100, ⟨.ok 42 99, .ok⟩, 0⟩
      ⟨[⟨3, "Gizmo", 2, "4", true, 0, some 5, some 6⟩], 4, []⟩ 3).2.1 = 1 :=
  (send_offer_announcement_spec
      ⟨⟨[7], none, "LMK if interested."⟩, some 7, 100, ⟨.ok 42 99, .ok⟩, 0⟩
      ⟨[⟨3, "Gizmo", 2, "4", true, 0, some 5, some 6⟩], 4, []⟩ 3).2.1
    ⟨3, "Gizmo", 2, "4", true, 0, some 5, some 6⟩ 42 99
    (by decide) (by decide) (by decide)

/-! ## C6: positive set-quantity is a frame-preserving re-activation -/

/-- C6: for an existing offer (retired or not) and a positive quantity,
`/setqty` sets the quantity, forces `active=true`, leaves every other
field (announcement binding included) and every other offer unchanged,
keeps the settings table intact, and performs no send, delete or rebind. -/
theorem set_quantity_positive_spec :
    ∀ ctx store sess text a b offerId q offer,
      requireAdminReply ctx.env ctx.userId = none →
      commandText text ≠ "" →
      pySplitWS (commandText text) = [a, b] →
      parseOfferId a = .ok offerId →
      parse_quantity b = .ok q →
      0 < q →
      store.get_offer offerId = some offer →
      (setQuantityCommand ctx store sess text).store.get_offer offerId
          = some { offer with quantity := q, active := true } ∧
      (∀ j, j ≠ offerId →
        (setQuantityCommand ctx store sess text).store.get_offer j
          = store.get_offer j) ∧
      (setQuantityCommand ctx store sess text).store.settings
          = store.settings ∧
      countSends (setQuantityCommand ctx store sess text).effects = 0 ∧
      countDeletes (setQuantityCommand ctx store sess text).effects = 0 ∧
      (∀ e ∈ (setQuantityCommand ctx store sess text).effects,
        e.isAttach = false) := by
  intro ctx store sess text a b offerId q offer hadmin hpay hsplit hid hq hpos h
  have hq0 : ¬ (q = 0) := by omega
  simp only [setQuantityCommand, hadmin, if_neg hpay, hsplit, hid, hq, h,
    if_neg hq0]
  refine ⟨?_, ?_, rfl, by simp [countSends, Effect.isSend],
    by simp [countDeletes, Effect.isDelete],
    by intro e he; fin_cases he <;> rfl⟩
  · rw [get_offer_set_active_self, get_offer_update_quantity_self, h]
    rfl
  · intro j hj
    rw [get_offer_set_active_other _ _ _ _ hj,
        get_offer_update_quantity_other _ _ _ _ hj]

/-- C6 (witness): re-stocking a retired, bound offer re-activates it and
keeps its binding, with no announcement traffic. -/
theorem set_quantity_positive_spec_witness :
    (setQuantityCommand ⟨⟨[7], none, "LMK if interested."⟩, some 7, 100,
        ⟨.ok 0 0, .ok⟩, 0⟩
      ⟨[⟨1, "Widget", 0, "5", false, 0, some 9, some 8⟩], 2, []⟩ none
      "/setqty 1 5").store.get_offer 1
      = some ⟨1, "Widget", 5, "5", true, 0, some 9, some 8⟩ ∧
    countSends (setQuantityCommand ⟨⟨[7], none, "LMK if interested."⟩, some 7,
        100, ⟨.ok 0 0, .ok⟩, 0⟩
      ⟨[⟨1, "Widget", 0, "5", false, 0, some 9, some 8⟩], 2, []⟩ none
      "/setqty 1 5").effects = 0 :=
  ⟨(set_quantity_positive_spec
      ⟨⟨[7], none, "LMK if interested."⟩, some 7, 100, ⟨.ok 0 0, .ok⟩, 0⟩
      ⟨[⟨1, "Widget", 0, "5", false, 0, some 9, some 8⟩], 2, []⟩ none
      "/setqty 1 5" "1" "5" 1 5 ⟨1, "Widget", 0, "5", false, 0, some 9, some 8⟩
      (by decide) (by decide) (by decide) (by decide) (by decide) (by decide)
      (by decide)).1,
   (set_quantity_positive_spec
      ⟨⟨[7], none, "LMK if interested."⟩, some 7, 100, ⟨.ok 0 0, .ok⟩, 0⟩
      ⟨[⟨1, "Widget", 0, "5", false, 0, some 9, some 8⟩], 2, []⟩ none
      "/setqty 1 5" "1" "5" 1 5 ⟨1, "Widget", 0, "5", false, 0, some 9, some 8⟩
      (by decide) (by decide) (by decide) (by decide) (by decide) (by decide)
      (by decide)).2.2.2.1⟩

/-! ## C8: size-gated upload routing -/

theorem uploadWithRetry_host (host : String) (o1 o2 : Except String String) :
    (uploadWithRetry host o1 o2).1.host = host := by
  cases o1 <;> cases o2 <;> rfl

theorem uploadWithRetry_calls_pos (host : String) (o1 o2 : Except String String) :
    0 < (uploadWithRetry host o1 o2).2 := by
  cases o1 <;> cases o2 <;> simp [uploadWithRetry]

/-- C8: the upload helper routes strictly by size — above the threshold
every call goes to Gofile, below it every call goes to Catbox, and all
calls of one upload go to the single selected host (which is also the
reported host).  `size < 2^53` records that the Python float quotient
`size_bytes / 2^20` is exact, so the rational model is faithful. -/
theorem upload_routing_spec :
    ∀ (t : ℚ) (size : Nat) (o1 o2 o3 o4 : Except String String),
      size < 2 ^ 53 →
      (t < (size : ℚ) / 1048576 →
        (uploaderUpload t size o1 o2 o3 o4).2 ≠ [] ∧
        ∀ h ∈ (uploaderUpload t size o1 o2 o3 o4).2, h = "Gofile") ∧
      ((size : ℚ) / 1048576 < t →
        (uploaderUpload t size o1 o2 o3 o4).2 ≠ [] ∧
        ∀ h ∈ (uploaderUpload t size o1 o2 o3 o4).2, h = "Catbox") ∧
      (∀ h ∈ (uploaderUpload t size o1 o2 o3 o4).2,
        h = (uploaderUpload t size o1 o2 o3 o4).1.host) := by
  intro t size o1 o2 o3 o4 hsize
  by_cases hle : (size : ℚ) / 1048576 ≤ t
  · refine ⟨fun hgt => absurd hle (not_le.mpr hgt), fun _ => ?_, ?_⟩
    · rw [show uploaderUpload t size o1 o2 o3 o4
          = (let r := uploadWithRetry "Catbox" o1 o2
             (r.1, List.replicate r.2 "Catbox"))
          from by simp [uploaderUpload, hle]]
      constructor
      · simp [List.replicate_eq_nil_iff,
          Nat.pos_iff_ne_zero.mp (uploadWithRetry_calls_pos "Catbox" o1 o2)]
      · intro h hh
        exact List.eq_of_mem_replicate hh
    · rw [show uploaderUpload t size o1 o2 o3 o4
          = (let r := uploadWithRetry "Catbox" o1 o2
             (r.1, List.replicate r.2 "Catbox"))
          from by simp [uploaderUpload, hle]]
      intro h hh
      rw [List.eq_of_mem_replicate hh]
      exact (uploadWithRetry_host "Catbox" o1 o2).symm
  · refine ⟨fun _ => ?_, fun hlt => absurd (le_of_lt hlt) hle, ?_⟩
    · rw [show uploaderUpload t size o1 o2 o3 o4
          = (let r := uploadWithRetry "Gofile" o3 o4
             (r.1, List.replicate r.2 "Gofile"))
          from by simp [uploaderUpload, hle]]
      constructor
      · simp [List.replicate_eq_nil_iff,
          Nat.pos_iff_ne_zero.mp (uploadWithRetry_calls_pos "Gofile" o3 o4)]
      · intro h hh
        exact List.eq_of_mem_replicate hh
    · rw [show uploaderUpload t size o1 o2 o3 o4
          = (let r := uploadWithRetry "Gofile" o3 o4
             (r.1, List.replicate r.2 "Gofile"))
          from by simp [uploaderUpload, hle]]
      intro h hh
      rw [List.eq_of_mem_replicate hh]
      exact (uploadWithRetry_host "Gofile" o3 o4).symm

/-- C8 (witness): a 250 MB file against the default 200 MB threshold is
routed to Gofile, never Catbox. -/
theorem upload_routing_spec_witness :
    (uploaderUpload 200 (250 * 1048576) (.ok "c") (.ok "c") (.ok "g")
        (.ok "g")).2 ≠ [] ∧
    ∀ h ∈ (uploaderUpload 200 (250 * 1048576) (.ok "c") (.ok "c") (.ok "g")
        (.ok "g")).2, h = "Gofile" :=
  (upload_routing_spec 200 (250 * 1048576) (.ok "c") (.ok "c") (.ok "g")
      (.ok "g") (by norm_num)).1 (by norm_num)

/-! ## C9: exactly one retry, failure embedded in the message -/

/-- C9: when the first call to the selected host fails, exactly one retry
is made (two calls total); if the retry fails too, no exception is
raised — the result is a failure `UploadResult` whose url slot carries
`Upload failed: <error>`, the built announcement contains that line under
the host's name together with a `Success: 0/1` flag, and announcement
generation still completes with a full message. -/
theorem upload_retry_spec :
    ∀ (host : String) (e1 : String) (o2 : Except String String),
      (uploadWithRetry host (.error e1) o2).2 = 2 ∧
      (∀ e2, o2 = .error e2 →
        (uploadWithRetry host (.error e1) o2).1.success = false ∧
        (uploadWithRetry host (.error e1) o2).1.url
          = "Upload failed: " ++ cleanErrText e2) ∧
      (∀ (t : ℚ) (metrics : FileMetrics) ch dc ts e2
          (g1 g2 : Except String String),
        (metrics.sizeBytes : ℚ) / 1048576 ≤ t →
        generateAnnouncementOne t metrics ch dc ts (.error e1) (.error e2)
            g1 g2
          = String.intercalate "\n" (buildMessageLines
              (resolveHeader ch dc metrics) metrics
              ⟨"Catbox", "Upload failed: " ++ cleanErrText e2, false,
                some (cleanErrText e2)⟩ ts) ∧
        ("Catbox" ++ ": " ++ ("Upload failed: " ++ cleanErrText e2))
          ∈ buildMessageLines (resolveHeader ch dc metrics) metrics
              ⟨"Catbox", "Upload failed: " ++ cleanErrText e2, false,
                some (cleanErrText e2)⟩ ts ∧
        "Success: 0/1" ∈ buildMessageLines (resolveHeader ch dc metrics)
            metrics
            ⟨"Catbox", "Upload failed: " ++ cleanErrText e2, false,
              some (cleanErrText e2)⟩ ts) := by
  intro host e1 o2
  refine ⟨by cases o2 <;> rfl, ?_, ?_⟩
  · rintro e2 rfl
    exact ⟨rfl, rfl⟩
  · intro t metrics ch dc ts e2 g1 g2 hle
    refine ⟨?_, ?_, ?_⟩
    · unfold generateAnnouncementOne buildMessage
      rw [show uploaderUpload t metrics.sizeBytes (.error e1) (.error e2) g1 g2
          = ((⟨"Catbox", "Upload failed: " ++ cleanErrText e2, false,
              some (cleanErrText e2)⟩ : UploadResult),
             List.replicate 2 "Catbox")
          from by simp [uploaderUpload, hle, uploadWithRetry]]
    · simp [buildMessageLines]
    · simp [buildMessageLines]

/-- C9 (witness): both Catbox attempts fail on a small file; the message
still contains the embedded failure line and the `0/1` flag. -/
theorem upload_retry_spec_witness :
    (uploadWithRetry "Catbox" (.error "net down") (.error "net down")).2 = 2 ∧
    ("Catbox" ++ ": " ++ ("Upload failed: " ++ cleanErrText "net down"))
      ∈ buildMessageLines (resolveHeader none none ⟨"f.txt", 3, 2, 1048576⟩)
          ⟨"f.txt", 3, 2, 1048576⟩
          ⟨"Catbox", "Upload failed: " ++ cleanErrText "net down", false,
            some (cleanErrText "net down")⟩ "2026-01-01 00:00:00" :=
  ⟨(upload_retry_spec "Catbox" "net down" (.error "net down")).1,
   ((upload_retry_spec "Catbox" "net down" (.error "net down")).2.2 1
      ⟨"f.txt", 3, 2, 1048576⟩ none none "2026-01-01 00:00:00" "net down"
      (.ok "g") (.ok "g") (by norm_num)).2.1⟩

/-! ## C10: the empty admin allow-list denies everyone -/

/-- C10: with an empty `ADMIN_USER_IDS`, `_is_admin` is false for every
user, and every privileged handler replies with the not-configured
message while leaving the repository and the acting user's session
exactly as they were. -/
theorem empty_admin_list_denies_all :
    (∀ uid : Option Int, isAdmin [] uid = false) ∧
    (∀ (ann : Option Int) (contact : String) (store : OfferStore)
        (sess : Option Session) (text : String) (uid : Option Int)
        (chat : Int) (tr : Transport) (now : Int),
      addOfferCommand ⟨⟨[], ann, contact⟩, uid, chat, tr, now⟩ store sess text
          = ⟨store, sess, [.reply "Admins are not configured. Set ADMIN_USER_IDS to enable admin commands."]⟩ ∧
      setQuantityCommand ⟨⟨[], ann, contact⟩, uid, chat, tr, now⟩ store sess text
          = ⟨store, sess, [.reply "Admins are not configured. Set ADMIN_USER_IDS to enable admin commands."]⟩ ∧
      setPriceCommand ⟨⟨[], ann, contact⟩, uid, chat, tr, now⟩ store sess text
          = ⟨store, sess, [.reply "Admins are not configured. Set ADMIN_USER_IDS to enable admin commands."]⟩ ∧
      soldOutCommand ⟨⟨[], ann, contact⟩, uid, chat, tr, now⟩ store sess text
          = ⟨store, sess, [.reply "Admins are not configured. Set ADMIN_USER_IDS to enable admin commands."]⟩ ∧
      announceCommand ⟨⟨[], ann, contact⟩, uid, chat, tr, now⟩ store sess text
          = ⟨store, sess, [.reply "Admins are not configured. Set ADMIN_USER_IDS to enable admin commands."]⟩ ∧
      setAnnounceCommand ⟨⟨[], ann, contact⟩, uid, chat, tr, now⟩ store sess text
          = ⟨store, sess, [.reply "Admins are not configured. Set ADMIN_USER_IDS to enable admin commands."]⟩ ∧
      uploadCommand ⟨⟨[], ann, contact⟩, uid, chat, tr, now⟩ store sess
          = ⟨store, sess, [.reply "Admins are not configured. Set ADMIN_USER_IDS to enable admin commands."]⟩ ∧
      (∀ (tag : FlowTag) (prompt : String),
        startFlow ⟨⟨[], ann, contact⟩, uid, chat, tr, now⟩ store sess tag prompt
          = ⟨store, sess, [.reply "Admins are not configured. Set ADMIN_USER_IDS to enable admin commands."]⟩)) := by
  constructor
  · intro uid
    cases uid <;> simp [isAdmin]
  · intro ann contact store sess text uid chat tr now
    exact ⟨rfl, rfl, rfl, rfl, rfl, rfl, rfl, fun _ _ => rfl⟩

/-! ## C2: session clearing on the final flow step -/

/-- C2 (counterexample): an admin in the re-announce flow sends a valid
offer id, the lifecycle action runs and fails (the transport send fails),
yet the session is NOT cleared — it still holds the re-announce step,
contradicting "the session is cleared whether the lifecycle action
succeeds or fails". -/
theorem reannounce_flow_keeps_session_on_failure :
    parseOfferId "5" = .ok 5 ∧
    (handleFlowText ⟨⟨[7], none, "LMK if interested."⟩, some 7, 100,
        ⟨.failed "boom", .ok⟩, 0⟩
      ⟨[⟨5, "Widget", 3, "2", true, 0, none, none⟩], 6, []⟩
      ⟨.announceId, ⟨none, none, none⟩⟩ "5").session
      = some ⟨.announceId, ⟨none, none, none⟩⟩ :=
  ⟨by decide, by decide⟩

/-- C2 (amended): when the final step's input is accepted the engine
invokes the lifecycle action synchronously; for the add-offer,
set-quantity, set-price and sold-out flows the session is then cleared
regardless of the action's success (for set-quantity/set-price this
requires the target offer to still exist — if it vanished the engine
resets to the id step instead); for the re-announce flow the session is
cleared only when the announcement succeeds and is kept unchanged on
failure. -/
theorem flow_final_step_clearing :
    ∀ ctx store sess text,
      isAdmin ctx.env.adminUserIds ctx.userId = true →
      (sess.tag = .addPrice →
        ∀ p, normalize_price text = .ok p →
          (handleFlowText ctx store sess text).session = none) ∧
      (sess.tag = .setQtyValue →
        ∀ q, parse_quantity text = .ok q →
          ∀ off, store.get_offer (sess.data.offerId.getD 0) = some off →
            (handleFlowText ctx store sess text).session = none) ∧
      (sess.tag = .setPriceValue →
        ∀ p, normalize_price text = .ok p →
          ∀ off, store.get_offer (sess.data.offerId.getD 0) = some off →
            (handleFlowText ctx store sess text).session = none) ∧
      (sess.tag = .soldOutId →
        ∀ i, parseOfferId text = .ok i →
          ∀ off, store.get_offer i = some off →
            (handleFlowText ctx store sess text).session = none) ∧
      (sess.tag = .announceId →
        ∀ i, parseOfferId text = .ok i →
          (handleFlowText ctx store sess text).session
            = if (sendOfferAnnouncement ctx store i).2.2 then none
              else some sess) := by
  intro ctx store sess text hadmin
  obtain ⟨tag, data⟩ := sess
  refine ⟨?_, ?_, ?_, ?_, ?_⟩
  · rintro rfl p hp
    simp only [handleFlowText, hadmin, Bool.not_true, Bool.false_eq_true,
      if_false, hp]
  · rintro rfl q hq off hoff
    simp only [handleFlowText, hadmin, Bool.not_true, Bool.false_eq_true,
      if_false, hq] at *
    rw [hoff]
    by_cases h0 : q = 0
    · simp [h0]
    · simp [h0]
  · rintro rfl p hp off hoff
    simp only [handleFlowText, hadmin, Bool.not_true, Bool.false_eq_true,
      if_false, hp] at *
    rw [hoff]
  · rintro rfl i hi off hoff
    simp only [handleFlowText, hadmin, Bool.not_true, Bool.false_eq_true,
      if_false, hi] at *
    rw [hoff]
  · rintro rfl i hi
    simp only [handleFlowText, hadmin, Bool.not_true, Bool.false_eq_true,
      if_false, hi]

/-- C2 (witness): the add-offer final step clears the session even though
the announcement send fails. -/
theorem flow_final_step_clearing_witness :
    (handleFlowText ⟨⟨[7], none, "LMK if interested."⟩, some 7, 100,
        ⟨.failed "boom", .ok⟩, 0⟩
      ⟨[], 1, []⟩ ⟨.addPrice, ⟨some "Widget", some 2, none⟩⟩ "3.5").session
      = none :=
  (flow_final_step_clearing
      ⟨⟨[7], none, "LMK if interested."⟩, some 7, 100, ⟨.failed "boom", .ok⟩, 0⟩
      ⟨[], 1, []⟩ ⟨.addPrice, ⟨some "Widget", some 2, none⟩⟩ "3.5"
      (by decide)).1 rfl "3.5" (by decide)

/-! ## C3: what a pending flow actually intercepts -/

theorem lookup_filter_ne (l : List (Int × Session)) (u v : Int)
    (hv : v ≠ u) :
    lookupSession (l.filter fun p => p.1 ≠ u) v = lookupSession l v := by
  have huv : ¬ (u = v) := fun h => hv h.symm
  induction l with
  | nil => rfl
  | cons p t ih =>
    by_cases hp : p.1 = u
    · rw [show (p :: t).filter (fun p => p.1 ≠ u) = t.filter (fun p => p.1 ≠ u)
          from by simp [List.filter, hp]]
      rw [ih]
      unfold lookupSession
      rw [List.find?_cons_of_neg _ (by simp [hp, huv])]
    · rw [show (p :: t).filter (fun p => p.1 ≠ u)
            = p :: t.filter (fun p => p.1 ≠ u)
          from by simp [List.filter, hp]]
      by_cases hpv : p.1 = v
      · unfold lookupSession
        rw [List.find?_cons_of_pos _ (by simpa using hpv),
            List.find?_cons_of_pos _ (by simpa using hpv)]
      · unfold lookupSession
        rw [List.find?_cons_of_neg _ (by simpa using hpv),
            List.find?_cons_of_neg _ (by simpa using hpv)]
        exact ih

theorem lookup_setSession_other (l : List (Int × Session)) (u v : Int)
    (s : Option Session) (hv : v ≠ u) :
    lookupSession (setSession l u s) v = lookupSession l v := by
  have huv : ¬ (u = v) := fun h => hv h.symm
  cases s with
  | none => exact lookup_filter_ne l u v hv
  | some s =>
    show lookupSession ((u, s) :: l.filter fun p => p.1 ≠ u) v = _
    unfold lookupSession
    rw [List.find?_cons_of_neg _ (by simp [huv])]
    exact lookup_filter_ne l u v hv

theorem lookup_setSession_self (l : List (Int × Session)) (u : Int)
    (s : Session) :
    lookupSession (setSession l u (some s)) u = some s := by
  show lookupSession ((u, s) :: l.filter fun p => p.1 ≠ u) u = _
  unfold lookupSession
  rw [List.find?_cons_of_pos _ (by simp)]
  rfl

theorem stockCommand_frame (store : OfferStore) (sess : Option Session) :
    (stockCommand store sess).store = store ∧
    (stockCommand store sess).session = sess := by
  simp only [stockCommand]
  split <;> exact ⟨rfl, rfl⟩

/-- C3 (counterexample): user 1 is mid add-offer flow (awaiting the item
name) and sends `/stock`.  The command is not rejected: it is dispatched
to the normal stock handler, which replies with the stock listing (here
"All sold out right now."), not the "finish or cancel current step"
message, while the flow stays pending. -/
theorem stock_command_not_rejected_mid_flow :
    (dispatch ⟨[1], none, "LMK if interested."⟩
        ⟨⟨[], 1, []⟩, [(1, ⟨.addName, ⟨none, none, none⟩⟩)]⟩ 1 100 "/stock"
        ⟨.ok 0 0, .ok⟩ 0).2
      = [.reply "All sold out right now."] ∧
    (dispatch ⟨[1], none, "LMK if interested."⟩
        ⟨⟨[], 1, []⟩, [(1, ⟨.addName, ⟨none, none, none⟩⟩)]⟩ 1 100 "/stock"
        ⟨.ok 0 0, .ok⟩ 0).1.sessions
      = [(1, ⟨.addName, ⟨none, none, none⟩⟩)] :=
  ⟨by decide, by decide⟩

/-- C3 (amended): while a user has a pending flow, a recognized menu
label other than Cancel/Help/Menu is rejected with the middle-of-a-step
message, leaving the flow state and the repository unchanged; slash
commands are NOT intercepted — they are dispatched to their registered
handlers (in particular `/stock` mid-flow runs the read-only stock
listing and leaves the flow pending and the repository unchanged; admin
commands clear the pending flow and execute normally).  Another user's
session is unaffected by either. -/
theorem flow_interception_amended :
    (∀ ctx store (s : Session) (text : String),
      MENU_LABELS.contains (pyStrip text) = true →
      pyStrip text ≠ "Cancel" → pyStrip text ≠ "Help" → pyStrip text ≠ "Menu" →
      handleText ctx store (some s) text
        = ⟨store, some s,
           [.reply "You're in the middle of a step. Send /cancel to stop."]⟩) ∧
    (∀ env bs (uid chat : Int) (s : Session) tr (now : Int),
      lookupSession bs.sessions uid = some s →
      (dispatch env bs uid chat "/stock" tr now).1.store = bs.store ∧
      lookupSession (dispatch env bs uid chat "/stock" tr now).1.sessions uid
        = some s) ∧
    (∀ env bs (uid chat : Int) (text : String) tr (now : Int) (v : Int),
      v ≠ uid →
      lookupSession (dispatch env bs uid chat text tr now).1.sessions v
        = lookupSession bs.sessions v) := by
  refine ⟨?_, ?_, ?_⟩
  · intro ctx store s text hmem hc hh hm
    unfold handleText
    rw [if_neg hc]
    simp only []
    rw [if_neg hh, if_neg hm, if_pos hmem]
  · intro env bs uid chat s tr now hs
    have hroute : dispatch env bs uid chat "/stock" tr now
        = (⟨(stockCommand bs.store (lookupSession bs.sessions uid)).store,
            setSession bs.sessions uid
              (stockCommand bs.store (lookupSession bs.sessions uid)).session⟩,
           (stockCommand bs.store (lookupSession bs.sessions uid)).effects) :=
      rfl
    rw [hroute]
    obtain ⟨h1, h2⟩ := stockCommand_frame bs.store (lookupSession bs.sessions uid)
    refine ⟨h1, ?_⟩
    rw [h2, hs]
    exact lookup_setSession_self bs.sessions uid s
  · intro env bs uid chat text tr now v hv
    show lookupSession (setSession bs.sessions uid _) v = _
    exact lookup_setSession_other bs.sessions uid v _ hv

/-- C3 (witness): the "Sold out" menu label typed mid add-offer flow is
rejected and changes nothing, while another user's session is untouched
by a dispatched message. -/
theorem flow_interception_amended_witness :
    handleText ⟨⟨[1], none, "LMK if interested."⟩, some 1, 100, ⟨.ok 0 0, .ok⟩, 0⟩
        ⟨[], 1, []⟩ (some ⟨.addName, ⟨none, none, none⟩⟩) "Sold out"
      = ⟨⟨[], 1, []⟩, some ⟨.addName, ⟨none, none, none⟩⟩,
         [.reply "You're in the middle of a step. Send /cancel to stop."]⟩ ∧
    lookupSession (dispatch ⟨[1], none, "LMK if interested."⟩
        ⟨⟨[], 1, []⟩, [(2, ⟨.soldOutId, ⟨none, none, none⟩⟩)]⟩ 1 100 "/stock"
        ⟨.ok 0 0, .ok⟩ 0).1.sessions 2
      = lookupSession [(2, ⟨.soldOutId, ⟨none, none, none⟩⟩)] 2 :=
  ⟨flow_interception_amended.1
      ⟨⟨[1], none, "LMK if interested."⟩, some 1, 100, ⟨.ok 0 0, .ok⟩, 0⟩
      ⟨[], 1, []⟩ ⟨.addName, ⟨none, none, none⟩⟩ "Sold out"
      (by decide) (by decide) (by decide) (by decide),
   flow_interception_amended.2.2 ⟨[1], none, "LMK if interested."⟩
      ⟨⟨[], 1, []⟩, [(2, ⟨.soldOutId, ⟨none, none, none⟩⟩)]⟩ 1 100 "/stock"
      ⟨.ok 0 0, .ok⟩ 0 2 (by decide)⟩

/-! ## C5: the quantity-zero-implies-inactive invariant -/

theorem storeInv_updateWhere (s : OfferStore) (i : Int) (f : Offer → Offer)
    (h : StoreInv s)
    (hf : ∀ o, (o.quantity = 0 → o.active = false) →
      ((f o).quantity = 0 → (f o).active = false)) :
    StoreInv (s.updateWhere i f).2 := by
  intro o ho
  simp only [OfferStore.updateWhere, List.mem_map] at ho
  obtain ⟨o₀, ho₀, rfl⟩ := ho
  by_cases hid : o₀.id = i
  · rw [if_pos hid]
    exact hf o₀ (h o₀ ho₀)
  · rw [if_neg hid]
    exact h o₀ ho₀

theorem storeInv_update_price (s : OfferStore) (i : Int) (p : String)
    (h : StoreInv s) : StoreInv (s.update_price i p).2 :=
  storeInv_updateWhere s i _ h fun _ ho => ho

theorem storeInv_attach (s : OfferStore) (i c m : Int) (h : StoreInv s) :
    StoreInv (s.attach_announcement i c m).2 :=
  storeInv_updateWhere s i _ h fun _ ho => ho

theorem storeInv_set_setting (s : OfferStore) (k v : String)
    (h : StoreInv s) : StoreInv (s.set_setting k v) :=
  fun o ho => h o ho

theorem storeInv_retire (s : OfferStore) (i : Int) (h : StoreInv s) :
    StoreInv ((s.update_quantity i 0).2.set_active i false).2 := by
  intro o ho
  simp only [OfferStore.update_quantity, OfferStore.set_active,
    OfferStore.updateWhere, List.map_map, List.mem_map] at ho
  obtain ⟨o₀, ho₀, rfl⟩ := ho
  by_cases hid : o₀.id = i
  · simp [Function.comp, hid]
  · simp only [Function.comp, if_neg hid]
    exact h o₀ ho₀

theorem storeInv_setqty_pos (s : OfferStore) (i q : Int) (hq : q ≠ 0)
    (h : StoreInv s) :
    StoreInv ((s.update_quantity i q).2.set_active i true).2 := by
  intro o ho
  simp only [OfferStore.update_quantity, OfferStore.set_active,
    OfferStore.updateWhere, List.map_map, List.mem_map] at ho
  obtain ⟨o₀, ho₀, rfl⟩ := ho
  by_cases hid : o₀.id = i
  · simp only [Function.comp, if_pos hid]
    intro h0
    exact absurd h0 hq
  · simp only [Function.comp, if_neg hid]
    exact h o₀ ho₀

theorem storeInv_add_offer (s : OfferStore) (name : String) (q : Int)
    (price : String) (now : Int) (hq : q ≠ 0) (h : StoreInv s) :
    StoreInv (s.add_offer name q price now).2 := by
  intro o ho
  simp only [OfferStore.add_offer, List.mem_append, List.mem_singleton] at ho
  rcases ho with ho | rfl
  · exact h o ho
  · intro h0
    exact absurd h0 hq

theorem storeInv_markSoldOut (ctx : Ctx) (s : OfferStore) (offer : Offer)
    (h : StoreInv s) : StoreInv (markSoldOut ctx s offer).1 :=
  storeInv_retire s offer.id h

theorem storeInv_createOfferAndAnnounce (ctx : Ctx) (s : OfferStore)
    (name : String) (q : Int) (price : String) (hq : q ≠ 0)
    (h : StoreInv s) : StoreInv (createOfferAndAnnounce ctx s name q price).1 := by
  unfold createOfferAndAnnounce
  cases ctx.tr.send with
  | ok c m =>
    exact storeInv_attach _ _ _ _ (storeInv_add_offer s name q price ctx.now hq h)
  | failed e =>
    exact storeInv_add_offer s name q price ctx.now hq h

theorem storeInv_sendOfferAnnouncement (ctx : Ctx) (s : OfferStore) (i : Int)
    (h : StoreInv s) : StoreInv (sendOfferAnnouncement ctx s i).1 := by
  unfold sendOfferAnnouncement
  cases hget : s.get_offer i with
  | none => exact h
  | some o =>
    by_cases hact : o.active
    · simp only [hact, Bool.not_true, Bool.false_eq_true, if_false]
      cases ctx.tr.send with
      | ok c m => exact storeInv_attach _ _ _ _ h
      | failed e => exact h
    · simp only [Bool.not_eq_true] at hact
      simp only [hact, Bool.not_false, if_true]
      exact h

theorem sessOpt_none :
    ∀ s' : Session, (none : Option Session) = some s' →
      sessionQtyOk s' = true := by
  intro s' h
  cases h

theorem sessOpt_some {s : Session} (hs : sessionQtyOk s = true) :
    ∀ s', (some s : Option Session) = some s' → sessionQtyOk s' = true := by
  intro s' h
  cases h
  exact hs

theorem handleFlowText_StepOk (ctx : Ctx) (store : OfferStore)
    (sess : Session) (text : String) (h : StoreInv store)
    (hs : sessionQtyOk sess = true) :
    StepOk (handleFlowText ctx store sess text) := by
  obtain ⟨tag, data⟩ := sess
  by_cases hadmin : isAdmin ctx.env.adminUserIds ctx.userId
  case neg =>
    simp only [handleFlowText, hadmin, Bool.not_false, if_true]
    exact ⟨h, sessOpt_none⟩
  case pos =>
    cases tag with
    | addName =>
      simp only [handleFlowText, hadmin, Bool.not_true, Bool.false_eq_true,
        if_false]
      by_cases hname : pyStrip text = ""
      · rw [if_pos hname]
        exact ⟨h, sessOpt_some hs⟩
      · rw [if_neg hname]
        exact ⟨h, sessOpt_some rfl⟩
    | addQty =>
      simp only [handleFlowText, hadmin, Bool.not_true, Bool.false_eq_true,
        if_false]
      cases hpq : parse_quantity text with
      | error m => exact ⟨h, sessOpt_some hs⟩
      | ok q =>
        dsimp only
        by_cases hq0 : q ≤ 0
        · rw [if_pos hq0]
          exact ⟨h, sessOpt_some hs⟩
        · rw [if_neg hq0]
          refine ⟨h, sessOpt_some ?_⟩
          simp only [sessionQtyOk]
          simp
          omega
    | addPrice =>
      simp only [handleFlowText, hadmin, Bool.not_true, Bool.false_eq_true,
        if_false]
      cases hnp : normalize_price text with
      | error e =>
        cases e with
        | valueError m => exact ⟨h, sessOpt_some hs⟩
        | invalidOperation => exact ⟨h, sessOpt_some hs⟩
      | ok p =>
        dsimp only
        cases hq : data.quantity with
        | none =>
          simp only [sessionQtyOk, hq] at hs
          cases hs
        | some q =>
          have hqpos : 0 < q := by
            simpa [sessionQtyOk, hq] using hs
          refine ⟨?_, sessOpt_none⟩
          show StoreInv (createOfferAndAnnounce ctx store
            (pyStrip (data.name.getD "")) ((some q).getD 0) p).1
          simp only [Option.getD_some]
          exact storeInv_createOfferAndAnnounce ctx store _ q p
            (by omega) h
    | setQtyId =>
      simp only [handleFlowText, hadmin, Bool.not_true, Bool.false_eq_true,
        if_false]
      cases hpi : parseOfferId text with
      | error m => exact ⟨h, sessOpt_some hs⟩
      | ok i =>
        dsimp only
        cases hget : store.get_offer i with
        | none => exact ⟨h, sessOpt_some hs⟩
        | some o => exact ⟨h, sessOpt_some rfl⟩
    | setQtyValue =>
      simp only [handleFlowText, hadmin, Bool.not_true, Bool.false_eq_true,
        if_false]
      cases hpq : parse_quantity text with
      | error m => exact ⟨h, sessOpt_some hs⟩
      | ok q =>
        dsimp only
        cases hget : store.get_offer (data.offerId.getD 0) with
        | none => exact ⟨h, sessOpt_some rfl⟩
        | some o =>
          dsimp only
          by_cases hq0 : q = 0
          · rw [if_pos hq0]
            exact ⟨storeInv_markSoldOut ctx store o h, sessOpt_none⟩
          · rw [if_neg hq0]
            exact ⟨storeInv_setqty_pos store _ q hq0 h, sessOpt_none⟩
    | setPriceId =>
      simp only [handleFlowText, hadmin, Bool.not_true, Bool.false_eq_true,
        if_false]
      cases hpi : parseOfferId text with
      | error m => exact ⟨h, sessOpt_some hs⟩
      | ok i =>
        dsimp only
        cases hget : store.get_offer i with
        | none => exact ⟨h, sessOpt_some hs⟩
        | some o => exact ⟨h, sessOpt_some rfl⟩
    | setPriceValue =>
      simp only [handleFlowText, hadmin, Bool.not_true, Bool.false_eq_true,
        if_false]
      cases hnp : normalize_price text with
      | error e =>
        cases e with
        | valueError m => exact ⟨h, sessOpt_some hs⟩
        | invalidOperation => exact ⟨h, sessOpt_some hs⟩
      | ok p =>
        dsimp only
        cases hget : store.get_offer (data.offerId.getD 0) with
        | none => exact ⟨h, sessOpt_some rfl⟩
        | some o =>
          exact ⟨storeInv_update_price store _ p h, sessOpt_none⟩
    | soldOutId =>
      simp only [handleFlowText, hadmin, Bool.not_true, Bool.false_eq_true,
        if_false]
      cases hpi : parseOfferId text with
      | error m => exact ⟨h, sessOpt_some hs⟩
      | ok i =>
        dsimp only
        cases hget : store.get_offer i with
        | none => exact ⟨h, sessOpt_some hs⟩
        | some o =>
          exact ⟨storeInv_markSoldOut ctx store o h, sessOpt_none⟩
    | announceId =>
      simp only [handleFlowText, hadmin, Bool.not_true, Bool.false_eq_true,
        if_false]
      cases hpi : parseOfferId text with
      | error m => exact ⟨h, sessOpt_some hs⟩
      | ok i =>
        dsimp only
        refine ⟨storeInv_sendOfferAnnouncement ctx store i h, ?_⟩
        by_cases hsucc : (sendOfferAnnouncement ctx store i).2.2
        · rw [if_pos hsucc]
          exact sessOpt_none
        · rw [if_neg hsucc]
          exact sessOpt_some hs
    | uploadWaitFile =>
      simp only [handleFlowText, hadmin, Bool.not_true, Bool.false_eq_true,
        if_false]
      exact ⟨h, sessOpt_some hs⟩

theorem parseAddPayload_pos {p : String} {n : String} {q : Int} {pr : String}
    (h : parseAddPayload p = .ok (n, q, pr)) : 0 < q := by
  unfold parseAddPayload at h
  split at h
  · split at h
    · exact absurd h (by simp)
    · split at h
      · exact absurd h (by simp)
      · next q' hq' =>
        split at h
        · exact absurd h (by simp)
        · next hq0 =>
          split at h
          · exact absurd h (by simp)
          · simp only [Except.ok.injEq, Prod.mk.injEq] at h
            obtain ⟨-, rfl, -⟩ := h
            omega
  · exact absurd h (by simp)

theorem addOfferCommand_StepOk (ctx : Ctx) (store : OfferStore)
    (sess : Option Session) (text : String) (h : StoreInv store)
    (hso : ∀ s', sess = some s' → sessionQtyOk s' = true) :
    StepOk (addOfferCommand ctx store sess text) := by
  unfold addOfferCommand
  split
  · exact ⟨h, hso⟩
  · dsimp only
    split
    · exact ⟨h, sessOpt_none⟩
    · split
      · exact ⟨h, sessOpt_none⟩
      · exact ⟨h, sessOpt_none⟩
      · next name q price heq =>
        exact ⟨storeInv_createOfferAndAnnounce ctx store name q price
          (by have := parseAddPayload_pos heq; omega) h, sessOpt_none⟩

theorem setQuantityCommand_StepOk (ctx : Ctx) (store : OfferStore)
    (sess : Option Session) (text : String) (h : StoreInv store)
    (hso : ∀ s', sess = some s' → sessionQtyOk s' = true) :
    StepOk (setQuantityCommand ctx store sess text) := by
  unfold setQuantityCommand
  split
  · exact ⟨h, hso⟩
  · dsimp only
    split
    · exact ⟨h, sessOpt_none⟩
    · split
      · split
        · exact ⟨h, sessOpt_none⟩
        · split
          · exact ⟨h, sessOpt_none⟩
          · split
            · exact ⟨h, sessOpt_none⟩
            · split
              · exact ⟨storeInv_markSoldOut ctx store _ h, sessOpt_none⟩
              · next hq0 =>
                exact ⟨storeInv_setqty_pos store _ _ hq0 h, sessOpt_none⟩
      · exact ⟨h, sessOpt_none⟩

theorem setPriceCommand_StepOk (ctx : Ctx) (store : OfferStore)
    (sess : Option Session) (text : String) (h : StoreInv store)
    (hso : ∀ s', sess = some s' → sessionQtyOk s' = true) :
    StepOk (setPriceCommand ctx store sess text) := by
  unfold setPriceCommand
  split
  · exact ⟨h, hso⟩
  · dsimp only
    split
    · exact ⟨h, sessOpt_none⟩
    · split
      · split
        · exact ⟨h, sessOpt_none⟩
        · split
          · exact ⟨h, sessOpt_none⟩
          · exact ⟨h, sessOpt_none⟩
          · split
            · exact ⟨h, sessOpt_none⟩
            · exact ⟨storeInv_update_price store _ _ h, sessOpt_none⟩
      · exact ⟨h, sessOpt_none⟩

theorem soldOutCommand_StepOk (ctx : Ctx) (store : OfferStore)
    (sess : Option Session) (text : String) (h : StoreInv store)
    (hso : ∀ s', sess = some s' → sessionQtyOk s' = true) :
    StepOk (soldOutCommand ctx store sess text) := by
  unfold soldOutCommand
  split
  · exact ⟨h, hso⟩
  · dsimp only
    split
    · exact ⟨h, sessOpt_none⟩
    · split
      · exact ⟨h, sessOpt_none⟩
      · split
        · exact ⟨h, sessOpt_none⟩
        · exact ⟨storeInv_markSoldOut ctx store _ h, sessOpt_none⟩

theorem announceCommand_StepOk (ctx : Ctx) (store : OfferStore)
    (sess : Option Session) (text : String) (h : StoreInv store)
    (hso : ∀ s', sess = some s' → sessionQtyOk s' = true) :
    StepOk (announceCommand ctx store sess text) := by
  unfold announceCommand
  split
  · exact ⟨h, hso⟩
  · dsimp only
    split
    · exact ⟨h, sessOpt_none⟩
    · split
      · exact ⟨h, sessOpt_none⟩
      · exact ⟨storeInv_sendOfferAnnouncement ctx store _ h, sessOpt_none⟩

theorem setAnnounceCommand_StepOk (ctx : Ctx) (store : OfferStore)
    (sess : Option Session) (text : String) (h : StoreInv store)
    (hso : ∀ s', sess = some s' → sessionQtyOk s' = true) :
    StepOk (setAnnounceCommand ctx store sess text) := by
  unfold setAnnounceCommand
  split
  · exact ⟨h, hso⟩
  · dsimp only
    split
    · exact ⟨h, sessOpt_none⟩
    · exact ⟨storeInv_set_setting store _ _ h, sessOpt_none⟩

theorem uploadCommand_StepOk (ctx : Ctx) (store : OfferStore)
    (sess : Option Session) (h : StoreInv store)
    (hso : ∀ s', sess = some s' → sessionQtyOk s' = true) :
    StepOk (uploadCommand ctx store sess) := by
  unfold uploadCommand
  split
  · exact ⟨h, hso⟩
  · exact ⟨h, sessOpt_some rfl⟩

theorem startFlow_StepOk (ctx : Ctx) (store : OfferStore)
    (sess : Option Session) (tag : FlowTag) (prompt : String)
    (h : StoreInv store)
    (hso : ∀ s', sess = some s' → sessionQtyOk s' = true)
    (htag : sessionQtyOk ⟨tag, {}⟩ = true) :
    StepOk (startFlow ctx store sess tag prompt) := by
  unfold startFlow
  split
  · exact ⟨h, hso⟩
  · exact ⟨h, sessOpt_some htag⟩

theorem stockCommand_StepOk (store : OfferStore) (sess : Option Session)
    (h : StoreInv store)
    (hso : ∀ s', sess = some s' → sessionQtyOk s' = true) :
    StepOk (stockCommand store sess) := by
  simp only [stockCommand]
  split
  · exact ⟨h, hso⟩
  · exact ⟨h, hso⟩

theorem textStockTrigger_StepOk (store : OfferStore) (sess : Option Session)
    (text : String) (h : StoreInv store)
    (hso : ∀ s', sess = some s' → sessionQtyOk s' = true) :
    StepOk (textStockTrigger store sess text) := by
  simp only [textStockTrigger]
  split
  · exact stockCommand_StepOk store sess h hso
  · exact ⟨h, hso⟩

theorem handleText_StepOk (ctx : Ctx) (store : OfferStore)
    (sess : Option Session) (rawText : String) (h : StoreInv store)
    (hso : ∀ s', sess = some s' → sessionQtyOk s' = true) :
    StepOk (handleText ctx store sess rawText) := by
  unfold handleText
  dsimp only
  by_cases hc : pyStrip rawText = "Cancel"
  · rw [if_pos hc]
    exact ⟨h, sessOpt_none⟩
  · rw [if_neg hc]
    cases sess with
    | some s =>
      dsimp only
      by_cases hh : pyStrip rawText = "Help"
      · rw [if_pos hh]
        exact ⟨h, hso⟩
      · rw [if_neg hh]
        by_cases hm : pyStrip rawText = "Menu"
        · rw [if_pos hm]
          exact ⟨h, hso⟩
        · rw [if_neg hm]
          by_cases hmem : MENU_LABELS.contains (pyStrip rawText)
          · rw [if_pos hmem]
            exact ⟨h, hso⟩
          · rw [if_neg hmem]
            exact handleFlowText_StepOk ctx store s (pyStrip rawText) h (hso s rfl)
    | none =>
      dsimp only
      repeat' split
      all_goals first
        | exact ⟨h, hso⟩
        | exact ⟨h, sessOpt_none⟩
        | exact startFlow_StepOk ctx store none _ _ h hso rfl
        | exact setAnnounceCommand_StepOk ctx store none rawText h hso
        | exact uploadCommand_StepOk ctx store none h hso
        | exact stockCommand_StepOk store none h hso
        | exact textStockTrigger_StepOk store none rawText h hso

theorem stateInv_assemble (bs : BotState) (uid : Int) (r : StepResult)
    (hr : StepOk r)
    (hsess : ∀ p ∈ bs.sessions, sessionQtyOk p.2 = true) :
    StateInv ⟨r.store, setSession bs.sessions uid r.session⟩ := by
  refine ⟨hr.1, ?_⟩
  intro p hp
  cases hcase : r.session with
  | none =>
    rw [hcase] at hp
    exact hsess p (List.mem_of_mem_filter hp)
  | some s =>
    rw [hcase] at hp
    rcases List.mem_cons.mp hp with rfl | hp'
    · exact hr.2 s hcase
    · exact hsess p (List.mem_of_mem_filter hp')

theorem lookupSession_sessionQtyOk (bs : BotState) (uid : Int)
    (hsess : ∀ p ∈ bs.sessions, sessionQtyOk p.2 = true) :
    ∀ s', lookupSession bs.sessions uid = some s' →
      sessionQtyOk s' = true := by
  intro s' hl
  unfold lookupSession at hl
  cases hf : bs.sessions.find? (fun p => p.1 = uid) with
  | none => rw [hf] at hl; cases hl
  | some p =>
    rw [hf] at hl
    have hps : p.2 = s' := Option.some.inj hl
    exact hps ▸ hsess p (List.mem_of_find?_eq_some hf)

theorem dispatch_StateInv (env : Env) (bs : BotState) (uid chat : Int)
    (text : String) (tr : Transport) (now : Int) (h : StateInv bs) :
    StateInv (dispatch env bs uid chat text tr now).1 := by
  obtain ⟨hstore, hsess⟩ := h
  have hso := lookupSession_sessionQtyOk bs uid hsess
  unfold dispatch
  dsimp only
  refine stateInv_assemble bs uid _ ?_ hsess
  cases hcmd : commandOf text with
  | none =>
    dsimp only
    exact handleText_StepOk _ _ _ _ hstore hso
  | some cmd =>
    dsimp only
    by_cases h1 : cmd = "start"
    · rw [if_pos h1]; exact ⟨hstore, hso⟩
    rw [if_neg h1]
    by_cases h2 : cmd = "help"
    · rw [if_pos h2]; exact ⟨hstore, hso⟩
    rw [if_neg h2]
    by_cases h3 : cmd = "menu"
    · rw [if_pos h3]; exact ⟨hstore, hso⟩
    rw [if_neg h3]
    by_cases h4 : cmd = "cancel"
    · rw [if_pos h4]; exact ⟨hstore, sessOpt_none⟩
    rw [if_neg h4]
    by_cases h5 : cmd = "stock"
    · rw [if_pos h5]; exact stockCommand_StepOk _ _ hstore hso
    rw [if_neg h5]
    by_cases h6 : cmd = "list"
    · rw [if_pos h6]; exact stockCommand_StepOk _ _ hstore hso
    rw [if_neg h6]
    by_cases h7 : cmd = "add"
    · rw [if_pos h7]; exact addOfferCommand_StepOk _ _ _ _ hstore hso
    rw [if_neg h7]
    by_cases h8 : cmd = "setqty"
    · rw [if_pos h8]; exact setQuantityCommand_StepOk _ _ _ _ hstore hso
    rw [if_neg h8]
    by_cases h9 : cmd = "setprice"
    · rw [if_pos h9]; exact setPriceCommand_StepOk _ _ _ _ hstore hso
    rw [if_neg h9]
    by_cases h10 : cmd = "soldout"
    · rw [if_pos h10]; exact soldOutCommand_StepOk _ _ _ _ hstore hso
    rw [if_neg h10]
    by_cases h11 : cmd = "remove"
    · rw [if_pos h11]; exact soldOutCommand_StepOk _ _ _ _ hstore hso
    rw [if_neg h11]
    by_cases h12 : cmd = "announce"
    · rw [if_pos h12]; exact announceCommand_StepOk _ _ _ _ hstore hso
    rw [if_neg h12]
    by_cases h13 : cmd = "setannounce"
    · rw [if_pos h13]; exact setAnnounceCommand_StepOk _ _ _ _ hstore hso
    rw [if_neg h13]
    by_cases h14 : cmd = "upload"
    · rw [if_pos h14]; exact uploadCommand_StepOk _ _ _ hstore hso
    rw [if_neg h14]
    exact ⟨hstore, hso⟩

/-- C5: the invariant "quantity = 0 implies active = false" holds for
every offer in every state reachable through the bot's text interface: it
holds at startup, and one dispatched update — any command, menu button or
flow input, under any transport outcome — preserves it (together with the
session well-formedness that creation-flow quantities are positive). -/
theorem quantity_zero_implies_inactive :
    StateInv initialBotState ∧
    ∀ env bs uid chat text tr now, StateInv bs →
      StateInv (dispatch env bs uid chat text tr now).1 := by
  constructor
  · exact ⟨fun o ho => absurd ho (List.not_mem_nil o),
      fun p hp => absurd hp (List.not_mem_nil p)⟩
  · intro env bs uid chat text tr now h
    exact dispatch_StateInv env bs uid chat text tr now h

/-- C5 (witness): marking the only offer sold out from an invariant
state yields an invariant state. -/
theorem quantity_zero_implies_inactive_witness :
    StateInv (dispatch ⟨[7], none, "LMK if interested."⟩
      ⟨⟨[⟨1, "Widget", 5, "10", true, 0, some 5, some 6⟩], 2, []⟩, []⟩
      7 100 "/soldout 1" ⟨.ok 0 0, .ok⟩ 3).1 :=
  quantity_zero_implies_inactive.2 ⟨[7], none, "LMK if interested."⟩
    ⟨⟨[⟨1, "Widget", 5, "10", true, 0, some 5, some 6⟩], 2, []⟩, []⟩
    7 100 "/soldout 1" ⟨.ok 0 0, .ok⟩ 3 (by unfold StateInv StoreInv; decide)

end AnnouncementBot
